import Mathlib

/-!
# Verification of the Duktape bytecode executor core (`duk_js_executor.c`)

Shallow embedding of the data model and the operations of the executor:
tagged values, the arithmetic/bitwise kernel, the frame model
(value/call/catch stacks), the non-local transfer ("longjmp") handler and
the catcher-related opcodes (ENDFIN, THROW, TYPEOFID).

Machine doubles are modelled by `DukDouble`: the executor core itself only
produces integral doubles (shift results, longjmp type codes) or NaNs, so
the carrier is an exact integer together with NaN bit patterns.  IEEE
operations whose result is not determined by the core (addition, division,
coercions) are passed in as function parameters or modelled from the spec,
as noted on each definition.
-/

namespace Duk

/-! ## Tagged values -/

/-- A model of a `duk_double_t` bit pattern: either a non-NaN value
(represented exactly; the executor core itself only stores integral
doubles) or a NaN with an explicit bit pattern. -/
inductive DukDouble where
  | finite (n : Int)
  | nan (bits : Nat)
deriving DecidableEq, Repr

/-- The single canonical ("normalized") NaN bit pattern (full NaN). -/
def canonicalNanBits : Nat := 0x7ff8000000000000

def DukDouble.isNan : DukDouble → Bool
  | .nan _ => true
  | .finite _ => false

/-- `DUK_DBLUNION_NORMALIZE_NAN_CHECK`: if the value is a NaN, replace it
with the canonical normalized NaN; otherwise leave it untouched. -/
def normalizeNanCheck : DukDouble → DukDouble
  | .nan _ => .nan canonicalNanBits
  | .finite n => .finite n

/-- `DUK_DBLUNION_IS_NORMALIZED`: a double is normalized when it is not a
NaN, or is the single canonical NaN. -/
def DukDouble.isNormalized : DukDouble → Bool
  | .nan b => b == canonicalNanBits
  | .finite _ => true

/-- A model of `duk_tval`.  Heap-allocated values (strings, objects) are
represented by their identity (string contents / object id), which is what
the executor observes.  Compiled function objects carry their `nregs`;
thread objects are referenced by an index into the heap's thread list. -/
inductive TVal where
  | undefinedActual
  | undefinedUnused
  | null
  | boolean (b : Bool)
  | num (d : DukDouble)
  | str (s : String)
  | obj (id : Nat)
  | funcObj (id : Nat) (nregs : Nat)
  | threadRef (idx : Nat)
deriving DecidableEq, Repr

/-! ## Bitwise binary operations (`duk__vm_bitwise_binary_op`) -/

/-- Interpret a nonnegative integer `< 2^32` as a signed 32-bit value,
i.e. the result of casting to `duk_int32_t`. -/
def toSigned32 (r : Int) : Int :=
  if r < 2147483648 then r else r - 4294967296

/-- Wrap an arbitrary integer to signed 32-bit (two's complement). -/
def wrapInt32 (n : Int) : Int := toSigned32 (n % 4294967296)

/-- `((duk_uint32_t) i) & 0xffffffffUL`: cast a signed 32-bit value to
unsigned 32-bit. -/
def castUint32 (i : Int) : Nat := (i % 4294967296).toNat

/-- Modelled from the spec: the `ToInt32` coercion (§4.1 delegates
`ToInt32` to the external coercion kernel; `duk_to_int32` is not part of
`duk_js_executor.c`).  Only the side-effect-free cases are modelled;
string/object coercion may run user code and is out of scope (`none`). -/
def duk_to_int32 : TVal → Option Int
  | .num (.finite n) => some (wrapInt32 n)
  | .num (.nan _) => some 0
  | .boolean b => some (if b then 1 else 0)
  | .null => some 0
  | .undefinedActual => some 0
  | .undefinedUnused => some 0
  | _ => none

/-- The bitwise opcodes dispatched by `duk__vm_bitwise_binary_op`. -/
inductive BitOp where
  | BAND | BOR | BXOR | BASL | BASR | BLSR
deriving DecidableEq, Repr

/-- The arithmetic core of `duk__vm_bitwise_binary_op`: both operands have
already been coerced with `duk_to_int32` (so they are in signed 32-bit
range).  Returns the double value stored into the result register (always
an exactly representable integer, never a NaN).

Shift counts: the code computes `u2 = ((duk_uint32_t) i2) & 0xffffffffUL`
and shifts by `u2 & 0x1f`.  For BASL the shifted value is wrapped back to
signed 32-bit (`i3 & 0xffffffff` on an exactly-32-bit `duk_int32_t`); for
BLSR the left operand is first cast to unsigned 32-bit. -/
def duk__vm_bitwise_core (opcode : BitOp) (i1 i2 : Int) : Int :=
  match opcode with
  | .BAND => toSigned32 (Nat.land (castUint32 i1) (castUint32 i2))
  | .BOR  => toSigned32 (Nat.lor (castUint32 i1) (castUint32 i2))
  | .BXOR => toSigned32 (Nat.xor (castUint32 i1) (castUint32 i2))
  | .BASL =>
      let u2 : Nat := castUint32 i2
      wrapInt32 (i1 * 2 ^ (u2 % 32))
  | .BASR =>
      let u2 : Nat := castUint32 i2
      Int.fdiv i1 (2 ^ (u2 % 32))
  | .BLSR =>
      let u1 : Nat := castUint32 i1
      let u2 : Nat := castUint32 i2
      ((u1 / 2 ^ (u2 % 32) : Nat) : Int)

/-- `duk__vm_bitwise_binary_op` on a value stack: coerce both operands
with `ToInt32`, compute, and store the (never-NaN) double into the
absolute slot `bottom + idx_z`.  Returns `none` when a coercion would
need to run user code, or the result slot is out of range (the code
asserts `idx_z < duk_get_top`). -/
def duk__vm_bitwise_binary_op (valstack : List TVal) (bottom : Nat)
    (tv_x tv_y : TVal) (idx_z : Nat) (opcode : BitOp) : Option (List TVal) :=
  match duk_to_int32 tv_x, duk_to_int32 tv_y with
  | some i1, some i2 =>
      if bottom + idx_z < valstack.length then
        some (valstack.set (bottom + idx_z)
          (.num (.finite (duk__vm_bitwise_core opcode i1 i2))))
      else none
  | _, _ => none

/-! ## Arithmetic kernel (`duk__vm_arith_add`, `duk__vm_arith_binary_op`,
`duk__vm_arith_unary_op`, `duk__vm_bitwise_not`)

The IEEE double operation itself (addition, subtraction, division, fmod,
negation) is not determined by the executor core; each helper takes the
raw machine result as input and models exactly what the core does with
it: `DUK_DBLUNION_NORMALIZE_NAN_CHECK` followed by the register store. -/

/-- The fast path of `duk__vm_arith_add` for number-number operands:
`du.d = x + y` (the raw IEEE sum `rawSum` is supplied), followed by NaN
normalization and the store into slot `bottom + idx_z`. -/
def duk__vm_arith_add_fast (valstack : List TVal) (bottom : Nat)
    (rawSum : DukDouble) (idx_z : Nat) : Option (List TVal) :=
  if bottom + idx_z < valstack.length then
    some (valstack.set (bottom + idx_z) (.num (normalizeNanCheck rawSum)))
  else none

/-- `duk__vm_arith_binary_op` (SUB/MUL/DIV/MOD) after operand coercion:
the raw machine result `rawRes` of the selected case is normalized and
stored. -/
def duk__vm_arith_binary_store (valstack : List TVal) (bottom : Nat)
    (rawRes : DukDouble) (idx_z : Nat) : Option (List TVal) :=
  if bottom + idx_z < valstack.length then
    some (valstack.set (bottom + idx_z) (.num (normalizeNanCheck rawRes)))
  else none

/-- `duk__vm_arith_unary_op` (UNM/UNP/INC/DEC) after operand coercion:
the raw machine result is normalized and stored. -/
def duk__vm_arith_unary_store (valstack : List TVal) (bottom : Nat)
    (rawRes : DukDouble) (idx_z : Nat) : Option (List TVal) :=
  if bottom + idx_z < valstack.length then
    some (valstack.set (bottom + idx_z) (.num (normalizeNanCheck rawRes)))
  else none

/-- `duk__vm_bitwise_not`: `i2 = ~i1` on the `ToInt32`-coerced operand;
the result is an exact integer double (never NaN). -/
def duk__vm_bitwise_not (valstack : List TVal) (bottom : Nat)
    (tv_x : TVal) (idx_z : Nat) : Option (List TVal) :=
  match duk_to_int32 tv_x with
  | some i1 =>
      if bottom + idx_z < valstack.length then
        some (valstack.set (bottom + idx_z) (.num (.finite (-i1 - 1))))
      else none
  | none => none

/-! ## Longjmp types and thread model -/

/-- `DUK_LJ_TYPE_*` constants.  The numeric codes live in
`duk_hthread.h` (not under `src/`); they are modelled from the spec's
enumeration of transfer kinds, keeping Duktape's numbering.  The
executor only relies on the codes being distinct and on `NORMAL` being
distinguishable in a catcher's scratch slot. -/
inductive LjType where
  | UNKNOWN | THROW | YIELD | RESUME | BREAK | CONTINUE | RETURN | NORMAL
deriving DecidableEq, Repr

/-- The numeric code of a longjmp type, as stored into catcher scratch
slots (`(duk_double_t) thr->heap->lj.type`). -/
def LjType.toCode : LjType → Nat
  | .UNKNOWN => 0
  | .THROW => 1
  | .YIELD => 2
  | .RESUME => 3
  | .BREAK => 4
  | .CONTINUE => 5
  | .RETURN => 6
  | .NORMAL => 7

/-- Partial inverse of `LjType.toCode`, used by `ENDFIN` when it reads a
completion code back out of the scratch slot. -/
def ljTypeOfCode : Nat → Option LjType
  | 0 => some .UNKNOWN
  | 1 => some .THROW
  | 2 => some .YIELD
  | 3 => some .RESUME
  | 4 => some .BREAK
  | 5 => some .CONTINUE
  | 6 => some .RETURN
  | 7 => some .NORMAL
  | _ => none

/-- The heap's longjmp state (`duk_heap.lj`): transfer type, two value
payloads and the error flag. -/
structure LjState where
  type : LjType
  value1 : TVal
  value2 : TVal
  iserror : Bool
deriving DecidableEq, Repr

/-- A lexical environment: either one of the function's own environment
records (identified abstractly) or a declarative record created for a
catch binding, holding a single binding and its outer environment. -/
inductive LexEnv where
  | base (id : Nat)
  | declEnv (name : String) (v : TVal) (outer : LexEnv)
deriving DecidableEq, Repr

/-- The function referenced by an activation: a compiled (Ecmascript)
function with its register count, or a native function. -/
inductive FuncRef where
  | compiled (nregs : Nat)
  | nativeFn (id : Nat)
deriving DecidableEq, Repr

/-- `duk_activation`: a call frame.  Positions into the value stack are
absolute indices, as in the source. -/
structure Activation where
  func : FuncRef
  pc : Nat
  idx_bottom : Nat
  idx_retval : Nat
  lex_env : Option LexEnv := none
deriving DecidableEq, Repr

/-- `DUK_CAT_TYPE_*`: catcher kinds. -/
inductive CatType where
  | TCF | LABEL
deriving DecidableEq, Repr

/-- `duk_catcher`: an entry in the catch stack. -/
structure Catcher where
  catType : CatType
  callstack_index : Nat
  pc_base : Nat
  idx_base : Nat
  label : Nat
  catchEnabled : Bool
  finallyEnabled : Bool
  catchBindingEnabled : Bool
  lexenvActive : Bool
  h_varname : Option String
deriving DecidableEq, Repr

/-- `DUK_HTHREAD_STATE_*`. -/
inductive ThreadState where
  | INACTIVE | RUNNING | RESUMED | YIELDED | TERMINATED
deriving DecidableEq, Repr

/-- `duk_hthread`: the three stacks, the thread state and the resumer
back-reference (an index into the heap's thread list).  The value stack's
used part is the list `valstack` (so `valstack.length` is the absolute
stack top); `valstack_alloc` is the allocated size. -/
structure DukThread where
  valstack : List TVal
  valstack_alloc : Nat
  valstack_bottom : Nat
  callstack : List Activation
  catchstack : List Catcher
  state : ThreadState
  resumer : Option Nat
deriving DecidableEq, Repr

/-- The heap: all threads, the current-thread index and the longjmp
state. -/
structure Heap where
  threads : List DukThread
  curr_thread : Nat
  lj : LjState
deriving DecidableEq, Repr

/-! ## Value stack primitives -/

/-- `DUK_VALSTACK_INTERNAL_EXTRA`: the spare kept above the register
window.  The constant lives in `duk_internal.h` (not under `src/`);
modelled from the spec's "spare" with Duktape's value. -/
def DUK_VALSTACK_INTERNAL_EXTRA : Nat := 64

/-- `duk_set_top` with a nonnegative index relative to
`valstack_bottom`: truncate above the new top, or pad with `undefined`
up to it. -/
def dukSetTop (t : DukThread) (newTopRel : Nat) : DukThread :=
  let newAbs := t.valstack_bottom + newTopRel
  if newAbs ≤ t.valstack.length then
    { t with valstack := t.valstack.take newAbs }
  else
    { t with
      valstack := t.valstack ++
        List.replicate (newAbs - t.valstack.length) .undefinedActual,
      valstack_alloc := max t.valstack_alloc newAbs }

/-- `duk_valstack_resize_raw` (shrink allowed): set the allocation to the
requested size, never below the used part. -/
def dukValstackResizeRaw (t : DukThread) (requested : Nat) : DukThread :=
  { t with valstack_alloc := max requested t.valstack.length }

/-- Replace the top activation (`thr->callstack + thr->callstack_top - 1`). -/
def setTopActivation (t : DukThread) (f : Activation → Activation) : DukThread :=
  match t.callstack.getLast? with
  | none => t
  | some act =>
      { t with callstack := t.callstack.dropLast ++ [f act] }

/-! ## `duk__reconfig_valstack` -/

/-- `duk__reconfig_valstack(thr, act_idx, retval_count)`: set
`valstack_bottom` to the frame's `idx_bottom`, clamp the top to
`idx_retval - idx_bottom + retval_count`, extend the allocation to
`nregs` plus the spare and set the top to `nregs`.  `none` when the
activation is missing or not a compiled function (asserted in the
source), or the clamp index would be negative (`duk_set_top` would
throw). -/
def duk__reconfig_valstack (t : DukThread) (act_idx : Nat)
    (retval_count : Nat) : Option DukThread :=
  match t.callstack[act_idx]? with
  | none => none
  | some act =>
    match act.func with
    | .nativeFn _ => none
    | .compiled nregs =>
        let newTopRel : Int :=
          (act.idx_retval : Int) - (act.idx_bottom : Int) + (retval_count : Int)
        if newTopRel < 0 then none
        else
          let t1 := { t with valstack_bottom := act.idx_bottom }
          let t2 := dukSetTop t1 newTopRel.toNat
          let t3 := dukValstackResizeRaw t2
            (t2.valstack_bottom + nregs + DUK_VALSTACK_INTERNAL_EXTRA)
          some (dukSetTop t3 nregs)

/-! ## Catch / finally / label handling -/

/-- `duk__handle_catch_or_finally(thr, cat_idx, is_finally)`: write
`lj.value1` and `lj.type` (as a number) to the catcher's two scratch
slots, unwind the catch stack to `cat_idx + 1` (keeping the catcher) and
the call stack to the catcher's frame, reconfigure the value stack to the
frame's `nregs`, set the PC to `pc_base + 1` for finally (`+ 0` for
catch), create the catch-binding environment if requested (for `catch`
only; the delayed initialization of the function's own records --
`duk_js_init_activation_environment_records_delayed`, external -- is
modelled as a `base` record), and clear the catcher's finally-enabled
(resp. catch-enabled) flag.  `none` on states the source asserts against
(missing catcher/activation, native frame, scratch slots out of range,
missing catch variable name). -/
def duk__handle_catch_or_finally (t : DukThread) (lj : LjState)
    (cat_idx : Nat) (is_finally : Bool) : Option DukThread := do
  let cat ← t.catchstack[cat_idx]?
  if cat.idx_base + 1 < t.valstack.length then
    let vs1 := (t.valstack.set cat.idx_base lj.value1).set (cat.idx_base + 1)
                 (.num (.finite lj.type.toCode))
    let t1 := { t with valstack := vs1,
                       catchstack := t.catchstack.take (cat_idx + 1),
                       callstack := t.callstack.take (cat.callstack_index + 1) }
    let act ← t1.callstack.getLast?
    match act.func with
    | .nativeFn _ => none
    | .compiled nregs =>
      let t2 := dukSetTop { t1 with valstack_bottom := act.idx_bottom } nregs
      let t3 := setTopActivation t2 fun a =>
        { a with pc := cat.pc_base + (if is_finally then 1 else 0) }
      let doBinding := !is_finally && cat.catchBindingEnabled
      let t4 ←
        if doBinding then
          match cat.h_varname with
          | none => none
          | some nm => some (setTopActivation t3 fun a =>
              { a with lex_env := some (.declEnv nm lj.value1
                  (a.lex_env.getD (LexEnv.base 0))) })
        else some t3
      let catFinal :=
        if is_finally then { cat with finallyEnabled := false }
        else { cat with catchEnabled := false,
                        lexenvActive := doBinding || cat.lexenvActive }
      some { t4 with catchstack := t4.catchstack.set cat_idx catFinal }
  else none

/-- `duk__handle_label(thr, cat_idx)`: set the PC to the label catcher's
`pc_base + 0` for break, `+ 1` for continue, and unwind the catch stack
to `cat_idx + 1`, keeping the label catcher.  No call or value stack
changes. -/
def duk__handle_label (t : DukThread) (lj : LjState) (cat_idx : Nat) :
    Option DukThread := do
  let cat ← t.catchstack[cat_idx]?
  let act ← t.callstack.getLast?
  match act.func with
  | .nativeFn _ => none
  | .compiled _ =>
    let t1 := setTopActivation t fun a =>
      { a with pc := cat.pc_base + (if lj.type = .CONTINUE then 1 else 0) }
    some { t1 with catchstack := t1.catchstack.take (cat_idx + 1) }

/-- `duk__handle_yield(thr, resumer, act_idx)`: write `lj.value1` at the
resumer activation's `idx_retval` (the return value of the pending
`Thread.resume()` / `Thread.yield()` call), unwind the resumer's call
stack to `act_idx + 1` and reconfigure its value stack with one retval.
Operates on the resumer thread. -/
def duk__handle_yield (lj : LjState) (resumer : DukThread) (act_idx : Nat) :
    Option DukThread := do
  let act ← resumer.callstack[act_idx]?
  match act.func with
  | .nativeFn _ => none
  | .compiled _ =>
    if act.idx_retval < resumer.valstack.length then
      let r1 := { resumer with
        valstack := resumer.valstack.set act.idx_retval lj.value1,
        callstack := resumer.callstack.take (act_idx + 1) }
      duk__reconfig_valstack r1 act_idx 1
    else none

/-- Modelled from the spec: `duk_hthread_terminate` (not under `src/`)
"updates thread state, minimizes its allocations": the thread becomes
`TERMINATED` and its call and catch stacks are unwound. -/
def duk_hthread_terminate (t : DukThread) : DukThread :=
  { t with state := .TERMINATED, callstack := [], catchstack := [] }

/-- Modelled from the spec (§4.4): `duk_handle_ecma_call_setup` for the
initial resume of an inactive thread (not under `src/`).  The resumee's
value stack is `[initial_func, undefined(this), resume_value]`; an
activation for the compiled initial function is installed with its
register window starting just above `this`. -/
def duk_handle_ecma_call_setup_resume (t : DukThread) : Option DukThread :=
  match t.valstack with
  | [TVal.funcObj _ nregs, _, _] =>
      let act : Activation :=
        { func := .compiled nregs, pc := 0, idx_bottom := 2, idx_retval := 0 }
      let t1 := { t with callstack := t.callstack ++ [act], valstack_bottom := 2 }
      some (dukSetTop t1 nregs)
  | _ => none

/-! ## Catch stack walks of `duk__handle_longjmp`

Each walk starts at `catchstack_top - 1` and moves downwards; the fuel
argument is the (one past the) index of the catcher currently looked at,
so calling with `cats.length` walks the whole stack top-down. -/

/-- The RETURN walk: while the catcher's frame equals the returning
frame, look for a finally-enabled TCF catcher.  Returns the found index
(or `none`) together with the unwind base `(cat - catchstack) + 1` at
the point where the loop stopped, which the caller-return path uses to
unwind the catch stack. -/
def duk__walk_return (cats : List Catcher) (orig : Nat) :
    Nat → Option Nat × Nat
  | 0 => (none, 0)
  | i + 1 =>
    match cats[i]? with
    | none => (none, 0)
    | some c =>
      if c.callstack_index ≠ orig then (none, i + 1)
      else if c.catType = .TCF ∧ c.finallyEnabled then (some i, i + 1)
      else duk__walk_return cats orig i

/-- The BREAK/CONTINUE walk: while the catcher's frame equals the frame
of the topmost catcher, a finally-enabled TCF catcher intercepts
(`true`), else a label catcher with the matching label id is taken
(`false`). -/
def duk__walk_break (cats : List Catcher) (orig lbl : Nat) :
    Nat → Option (Nat × Bool)
  | 0 => none
  | i + 1 =>
    match cats[i]? with
    | none => none
    | some c =>
      if c.callstack_index ≠ orig then none
      else if c.catType = .TCF ∧ c.finallyEnabled then some (i, true)
      else if c.catType = .LABEL ∧ c.label = lbl then some (i, false)
      else duk__walk_break cats orig lbl i

/-- The THROW walk: stop at the entry frame when in the entry thread;
a catch-enabled catcher takes the throw as a catch (`true`), else a
finally-enabled one takes it as a finally (`false`). -/
def duk__walk_throw (cats : List Catcher) (isEntry : Bool)
    (entry_callstack_index : Nat) : Nat → Option (Nat × Bool)
  | 0 => none
  | i + 1 =>
    match cats[i]? with
    | none => none
    | some c =>
      if isEntry ∧ c.callstack_index < entry_callstack_index then none
      else if c.catchEnabled then some (i, true)
      else if c.finallyEnabled then some (i, false)
      else duk__walk_throw cats isEntry entry_callstack_index i

/-! ## The longjmp handler -/

/-- The handler's return codes (`DUK__LONGJMP_*`); `INTERNAL_ERROR`
models `convert_to_internal_error`, which raises an InternalError that
bubbles outwards. -/
inductive LongjmpResult where
  | RESTART | FINISHED | RETHROW | INTERNAL_ERROR
deriving DecidableEq, Repr

/-- One pass of the handler either finishes with a result, or loops back
to `check_longjmp` with an updated heap (`goto check_longjmp`); `stuck`
models states the source asserts against / undefined behavior. -/
inductive LjStep where
  | done (h : Heap) (r : LongjmpResult)
  | again (h : Heap)
  | stuck
deriving DecidableEq, Repr

def Heap.getThread (h : Heap) (i : Nat) : Option DukThread := h.threads[i]?

def Heap.setThread (h : Heap) (i : Nat) (t : DukThread) : Heap :=
  { h with threads := h.threads.set i t }

/-- `wipe_and_return`: reset the longjmp state to `Unknown` with
unused-undefined payloads. -/
def wipeLj (h : Heap) : Heap :=
  { h with lj := { type := .UNKNOWN, value1 := .undefinedUnused,
                   value2 := .undefinedUnused, iserror := false } }

/-- One pass of `duk__handle_longjmp` (the body of the `check_longjmp`
loop): dispatch on the longjmp type and either settle the transfer or
convert it and loop. -/
def duk__handle_longjmp_step (h : Heap) (entry_thread : Nat)
    (entry_callstack_top : Nat) : LjStep :=
  if entry_callstack_top = 0 then .stuck else
  let entry_callstack_index := entry_callstack_top - 1
  match h.threads[h.curr_thread]? with
  | none => .stuck
  | some thr =>
    match h.lj.type with
    | .RESUME =>
      match h.lj.value2 with
      | .threadRef rid =>
        match h.getThread rid with
        | none => .stuck
        | some resumee =>
          if h.lj.iserror then
            /- throw the error in the resumed thread's context -/
            let resumee1 := { resumee with resumer := some h.curr_thread,
                                           state := .RUNNING }
            let thr1 := { thr with state := .RESUMED }
            let h1 := (h.setThread h.curr_thread thr1).setThread rid resumee1
            .again { h1 with curr_thread := rid,
                             lj := { h1.lj with type := .THROW } }
          else if resumee.state = .YIELDED then
            if resumee.callstack.length ≥ 2 then
              let act_idx := resumee.callstack.length - 2
              match resumee.callstack[act_idx]? with
              | none => .stuck
              | some act =>
                if act.idx_retval < resumee.valstack.length then
                  let r1 := { resumee with
                    valstack := resumee.valstack.set act.idx_retval h.lj.value1,
                    callstack := resumee.callstack.take (act_idx + 1) }
                  match duk__reconfig_valstack r1 act_idx 1 with
                  | none => .stuck
                  | some r2 =>
                    let r3 := { r2 with resumer := some h.curr_thread,
                                        state := .RUNNING }
                    let thr1 := { thr with state := .RESUMED }
                    let h1 := (h.setThread h.curr_thread thr1).setThread rid r3
                    .done (wipeLj { h1 with curr_thread := rid }) .RESTART
                else .stuck
            else .stuck
          else
            /- inactive target: set up the initial call -/
            let r1 := { resumee with
              valstack := resumee.valstack ++ [.undefinedActual, h.lj.value1] }
            match duk_handle_ecma_call_setup_resume r1 with
            | none => .done h .INTERNAL_ERROR
            | some r2 =>
              let r3 := { r2 with resumer := some h.curr_thread,
                                  state := .RUNNING }
              let thr1 := { thr with state := .RESUMED }
              let h1 := (h.setThread h.curr_thread thr1).setThread rid r3
              .done (wipeLj { h1 with curr_thread := rid }) .RESTART
      | _ => .stuck
    | .YIELD =>
      if h.curr_thread = entry_thread then .stuck else
      match thr.resumer with
      | none => .stuck
      | some rid =>
        match h.getThread rid with
        | none => .stuck
        | some resumer =>
          if h.lj.iserror then
            let thr1 := { thr with state := .YIELDED, resumer := none }
            let resumer1 := { resumer with state := .RUNNING }
            let h1 := (h.setThread h.curr_thread thr1).setThread rid resumer1
            .again { h1 with curr_thread := rid,
                             lj := { h1.lj with type := .THROW } }
          else
            if resumer.callstack.length ≥ 2 then
              match duk__handle_yield h.lj resumer (resumer.callstack.length - 2) with
              | none => .stuck
              | some resumer1 =>
                let thr1 := { thr with state := .YIELDED, resumer := none }
                let resumer2 := { resumer1 with state := .RUNNING }
                let h1 := (h.setThread h.curr_thread thr1).setThread rid resumer2
                .done (wipeLj { h1 with curr_thread := rid }) .RESTART
            else .stuck
    | .RETURN =>
      if thr.callstack.length = 0 then .stuck else
      let orig := thr.callstack.length - 1
      match duk__walk_return thr.catchstack orig thr.catchstack.length with
      | (some i, _) =>
        match duk__handle_catch_or_finally thr h.lj i true with
        | none => .stuck
        | some thr1 => .done (wipeLj (h.setThread h.curr_thread thr1)) .RESTART
      | (none, stop) =>
        if h.curr_thread = entry_thread ∧
           thr.callstack.length = entry_callstack_top then
          let thr1 := { thr with valstack := thr.valstack ++ [h.lj.value1] }
          .done (wipeLj (h.setThread h.curr_thread thr1)) .FINISHED
        else if thr.callstack.length ≥ 2 then
          match thr.callstack[thr.callstack.length - 2]? with
          | none => .stuck
          | some caller =>
            match caller.func with
            | .nativeFn _ => .stuck
            | .compiled _ =>
              if caller.idx_retval < thr.valstack.length then
                let thr1 := { thr with
                  valstack := thr.valstack.set caller.idx_retval h.lj.value1,
                  catchstack := thr.catchstack.take stop,
                  callstack := thr.callstack.take (thr.callstack.length - 1) }
                match duk__reconfig_valstack thr1 (thr.callstack.length - 2) 1 with
                | none => .stuck
                | some thr2 =>
                  .done (wipeLj (h.setThread h.curr_thread thr2)) .RESTART
              else .stuck
        else
          /- no calling activation: the thread finishes, deliver to resumer -/
          match thr.resumer with
          | none => .stuck
          | some rid =>
            match h.getThread rid with
            | none => .stuck
            | some resumer =>
              if resumer.callstack.length ≥ 2 then
                match duk__handle_yield h.lj resumer
                        (resumer.callstack.length - 2) with
                | none => .stuck
                | some resumer1 =>
                  let thr1 := { duk_hthread_terminate thr with resumer := none }
                  let resumer2 := { resumer1 with state := .RUNNING }
                  let h1 := (h.setThread h.curr_thread thr1).setThread rid resumer2
                  .done (wipeLj { h1 with curr_thread := rid }) .RESTART
              else .stuck
    | .BREAK | .CONTINUE =>
      match thr.catchstack.getLast? with
      | none => .stuck
      | some topcat =>
        let orig := topcat.callstack_index
        match h.lj.value1 with
        | .num (.finite lbl) =>
          if lbl < 0 then .stuck else
          match duk__walk_break thr.catchstack orig lbl.toNat
                  thr.catchstack.length with
          | some (i, true) =>
            match duk__handle_catch_or_finally thr h.lj i true with
            | none => .stuck
            | some thr1 =>
              .done (wipeLj (h.setThread h.curr_thread thr1)) .RESTART
          | some (i, false) =>
            match duk__handle_label thr h.lj i with
            | none => .stuck
            | some thr1 =>
              .done (wipeLj (h.setThread h.curr_thread thr1)) .RESTART
          | none => .done h .INTERNAL_ERROR
        | _ => .stuck
    | .THROW =>
      match duk__walk_throw thr.catchstack (h.curr_thread == entry_thread)
              entry_callstack_index thr.catchstack.length with
      | some (i, isCatch) =>
        match duk__handle_catch_or_finally thr h.lj i (!isCatch) with
        | none => .stuck
        | some thr1 => .done (wipeLj (h.setThread h.curr_thread thr1)) .RESTART
      | none =>
        if h.curr_thread = entry_thread then
          /- just_return: heap->lj remains intact for the rethrow -/
          .done h .RETHROW
        else
          match thr.resumer with
          | none => .stuck
          | some rid =>
            match h.getThread rid with
            | none => .stuck
            | some resumer =>
              let thr1 := { duk_hthread_terminate thr with resumer := none }
              let resumer1 := { resumer with state := .RUNNING }
              let h1 := (h.setThread h.curr_thread thr1).setThread rid resumer1
              .again { h1 with curr_thread := rid }
    | .NORMAL => .done h .INTERNAL_ERROR
    | .UNKNOWN => .done h .INTERNAL_ERROR

/-- `duk__handle_longjmp`: iterate `check_longjmp` passes.  The fuel
bounds the number of `goto check_longjmp` iterations (each one crosses to
a resumer or resumee thread); `none` on fuel exhaustion or on a state the
source asserts against. -/
def duk__handle_longjmp : Nat → Heap → Nat → Nat → Option (Heap × LongjmpResult)
  | 0, _, _, _ => none
  | fuel + 1, h, entry_thread, entry_callstack_top =>
    match duk__handle_longjmp_step h entry_thread entry_callstack_top with
    | .done h1 r => some (h1, r)
    | .again h1 => duk__handle_longjmp fuel h1 entry_thread entry_callstack_top
    | .stuck => none

/-! ## Catcher-related opcodes -/

/-- The outcome of one opcode: fall through to the next instruction, or
trap to the longjmp handler with a populated longjmp state. -/
inductive OpOutcome where
  | normal (t : DukThread)
  | longjmp (t : DukThread) (lj : LjState)
deriving DecidableEq, Repr

/-- Modelled from the spec: `duk_err_setup_heap_ljstate` (error plumbing,
not under `src/`): populate the longjmp state of the given type with the
value on the stack top as `value1` (consumed), the error flag set exactly
for a throw.  Per §7, errors are augmented at construction, never here. -/
def duk_err_setup_heap_ljstate (t : DukThread) (ty : LjType) :
    Option (DukThread × LjState) :=
  match t.valstack.getLast? with
  | none => none
  | some v =>
      some ({ t with valstack := t.valstack.dropLast },
            { type := ty, value1 := v, value2 := .undefinedUnused,
              iserror := ty == .THROW })

/-- `DUK_EXTRAOP_ENDFIN`: read the completion type from the catcher's
second scratch slot.  A `Normal` completion dismantles the catcher and
falls through; any other completion repackages the saved value (first
scratch slot) as a fresh longjmp of the recorded type and traps again. -/
def DUK_EXTRAOP_ENDFIN_exec (t : DukThread) : Option OpOutcome := do
  let cat ← t.catchstack.getLast?
  if t.callstack.length ≠ 0 ∧ cat.callstack_index = t.callstack.length - 1 then
    match t.valstack[cat.idx_base + 1]? with
    | some (.num (.finite code)) =>
      if code = (LjType.NORMAL.toCode : Int) then
        some (.normal
          { t with catchstack := t.catchstack.take (t.catchstack.length - 1) })
      else if code < 0 then none
      else
        match t.valstack[cat.idx_base]?, ljTypeOfCode code.toNat with
        | some v, some ty =>
            let t1 := { t with valstack := t.valstack ++ [v] }
            match duk_err_setup_heap_ljstate t1 ty with
            | none => none
            | some (t2, lj) => some (.longjmp t2 lj)
        | _, _ => none
    | _ => none
  else none

/-- `DUK_EXTRAOP_THROW`: duplicate the value of register `b` to the stack
top and populate the longjmp state with it as a throw.  The conditional
augment-at-throw hook (`duk_err_augment_error_throw`, external and
compiled in only under `DUK_USE_AUGMENT_ERROR_THROW`) is, per spec §7,
the identity on the thrown value: errors are augmented at construction,
not at throw. -/
def DUK_EXTRAOP_THROW_exec (t : DukThread) (b : Nat) :
    Option (DukThread × LjState) := do
  let v ← t.valstack[t.valstack_bottom + b]?
  let t1 := { t with valstack := t.valstack ++ [v] }
  duk_err_setup_heap_ljstate t1 .THROW

/-- Modelled from the spec: `duk_js_typeof` (external object-model
routine): the ECMAScript `typeof` string of a value. -/
def duk_js_typeof : TVal → String
  | .undefinedActual => "undefined"
  | .undefinedUnused => "undefined"
  | .null => "object"
  | .boolean _ => "boolean"
  | .num _ => "number"
  | .str _ => "string"
  | .obj _ => "object"
  | .funcObj _ _ => "function"
  | .threadRef _ => "object"

/-- Modelled from the spec: lookup along a lexical environment chain;
`base` records consult the supplied global/function bindings. -/
def lexEnvLookup (globals : Nat → String → Option TVal) :
    LexEnv → String → Option TVal
  | .base id, nm => globals id nm
  | .declEnv nm1 v outer, nm =>
      if nm = nm1 then some v else lexEnvLookup globals outer nm

/-- Modelled from the spec: `duk_js_getvar_activation` (external) with
the `throw` flag 0: resolve an identifier through the activation's
environment chain, returning `none` -- and never throwing -- when the
identifier is unresolvable. -/
def duk_js_getvar_activation (globals : Nat → String → Option TVal)
    (env : Option LexEnv) (nm : String) : Option TVal :=
  env.bind fun e => lexEnvLookup globals e nm

/-- `DUK_EXTRAOP_TYPEOFID`: resolve the identifier named by constant `c`
through the activation's environment; on success write the `typeof`
string of its value to register `b` (the pushed val/this pair is popped
again), on an unresolvable identifier write the string `"undefined"`.
Both branches leave the value stack shape unchanged and neither
throws. -/
def DUK_EXTRAOP_TYPEOFID_exec (globals : Nat → String → Option TVal)
    (t : DukThread) (consts : List TVal) (b c : Nat) : Option DukThread := do
  let act ← t.callstack.getLast?
  match consts[c]? with
  | some (.str name) =>
      if t.valstack_bottom + b < t.valstack.length then
        match duk_js_getvar_activation globals act.lex_env name with
        | some v =>
            some { t with valstack := t.valstack.set (t.valstack_bottom + b)
                            (.str (duk_js_typeof v)) }
        | none =>
            some { t with valstack := t.valstack.set (t.valstack_bottom + b)
                            (.str "undefined") }
      else none
  | _ => none

/-! ## Concrete witness states -/

/-- C7 witness thread: one compiled frame with `nregs = 2`,
`idx_bottom = 1`, `idx_retval = 1`. -/
def reconfigWitnessAct : Activation :=
  { func := .compiled 2, pc := 0, idx_bottom := 1, idx_retval := 1 }

def reconfigWitnessThread : DukThread :=
  { valstack := [.null, .boolean true, .null, .null], valstack_alloc := 4,
    valstack_bottom := 0, callstack := [reconfigWitnessAct], catchstack := [],
    state := .RUNNING, resumer := none }

def reconfigWitnessResult : DukThread :=
  { valstack := [.null, .boolean true, .undefinedActual], valstack_alloc := 67,
    valstack_bottom := 1, callstack := [reconfigWitnessAct], catchstack := [],
    state := .RUNNING, resumer := none }

/-- Witness states for C1/C5: one compiled frame, a TCF catcher with the
scratch slots at indices 1 and 2 of a three-register window. -/
def c1Act : Activation :=
  { func := .compiled 3, pc := 5, idx_bottom := 0, idx_retval := 0 }

def c1Cat : Catcher :=
  { catType := .TCF, callstack_index := 0, pc_base := 10, idx_base := 1,
    label := 0, catchEnabled := false, finallyEnabled := true,
    catchBindingEnabled := false, lexenvActive := false, h_varname := none }

def c1Thread : DukThread :=
  { valstack := [.null, .null, .null], valstack_alloc := 67,
    valstack_bottom := 0, callstack := [c1Act], catchstack := [c1Cat],
    state := .RUNNING, resumer := none }

def c1Lj : LjState :=
  { type := .RETURN, value1 := .num (.finite 42),
    value2 := .undefinedUnused, iserror := false }

def c1EndfinCat : Catcher :=
  { c1Cat with idx_base := 0, finallyEnabled := false }

def c1EndfinNormal : DukThread :=
  { c1Thread with valstack := [.num (.finite 42), .num (.finite 7)], catchstack := [c1EndfinCat] }

def c1EndfinAbrupt : DukThread :=
  { c1Thread with valstack := [.num (.finite 42), .num (.finite 6)], catchstack := [c1EndfinCat] }

/-- C4 witness: a label catcher with label id 5 in the only frame. -/
def c4Cat : Catcher :=
  { catType := .LABEL, callstack_index := 0, pc_base := 20, idx_base := 0,
    label := 5, catchEnabled := false, finallyEnabled := false,
    catchBindingEnabled := false, lexenvActive := false, h_varname := none }

def c4Thread : DukThread :=
  { valstack := [.null, .null, .null], valstack_alloc := 67,
    valstack_bottom := 0, callstack := [c1Act], catchstack := [c4Cat],
    state := .RUNNING, resumer := none }

def c4Heap : Heap :=
  { threads := [c4Thread], curr_thread := 0,
    lj := { type := .BREAK, value1 := .num (.finite 5),
            value2 := .undefinedUnused, iserror := false } }

/-- C2 witness: a return into a compiled caller (`idx_retval = 1`). -/
def c2Caller : Activation :=
  { func := .compiled 3, pc := 0, idx_bottom := 0, idx_retval := 1 }

def c2Top : Activation :=
  { func := .compiled 1, pc := 0, idx_bottom := 4, idx_retval := 4 }

def c2Thread : DukThread :=
  { valstack := [.null, .null, .null, .null, .null], valstack_alloc := 80,
    valstack_bottom := 4, callstack := [c2Caller, c2Top], catchstack := [],
    state := .RUNNING, resumer := none }

def c2Heap : Heap :=
  { threads := [c2Thread], curr_thread := 0,
    lj := { type := .RETURN, value1 := .num (.finite 7),
            value2 := .undefinedUnused, iserror := false } }

/-- C3/C10 witness heaps: a resumer (index 0) with a pending `resume()`
call site and a resumed coroutine (index 1). -/
def c3Resumer : DukThread :=
  { valstack := [.null, .null, .null], valstack_alloc := 67,
    valstack_bottom := 0,
    callstack := [c1Act,
      { func := .nativeFn 0, pc := 0, idx_bottom := 2, idx_retval := 0 }],
    catchstack := [], state := .RESUMED, resumer := none }

def c3Coro : DukThread :=
  { valstack := [.null], valstack_alloc := 65, valstack_bottom := 0,
    callstack := [c1Act], catchstack := [], state := .RUNNING,
    resumer := some 0 }

def c3Heap : Heap :=
  { threads := [c3Resumer, c3Coro], curr_thread := 1,
    lj := { type := .THROW, value1 := .str "err",
            value2 := .undefinedUnused, iserror := true } }

def c10Heap : Heap :=
  { threads := [c3Resumer, c3Coro], curr_thread := 1,
    lj := { type := .YIELD, value1 := .str "e",
            value2 := .undefinedUnused, iserror := true } }

/-- C9 witness frame and thread: empty environment, one register. -/
def typeofidWitnessAct : Activation :=
  { func := .compiled 1, pc := 0, idx_bottom := 0, idx_retval := 0 }

def typeofidWitnessThread : DukThread :=
  { valstack := [.null], valstack_alloc := 65, valstack_bottom := 0,
    callstack := [typeofidWitnessAct], catchstack := [], state := .RUNNING,
    resumer := none }

/-! ## Helper lemmas -/

theorem normalizeNanCheck_isNormalized (d : DukDouble) :
    (normalizeNanCheck d).isNormalized = true := by
  cases d <;> simp [normalizeNanCheck, DukDouble.isNormalized]

theorem normalizeNanCheck_of_isNan (d : DukDouble) (h : d.isNan = true) :
    normalizeNanCheck d = .nan canonicalNanBits := by
  cases d <;> simp_all [normalizeNanCheck, DukDouble.isNan]

theorem wrapInt32_range (n : Int) :
    -2147483648 ≤ wrapInt32 n ∧ wrapInt32 n < 2147483648 := by
  have h1 : 0 ≤ n % 4294967296 := Int.emod_nonneg n (by norm_num)
  have h2 : n % 4294967296 < 4294967296 := Int.emod_lt_of_pos n (by norm_num)
  unfold wrapInt32 toSigned32
  split <;> omega

theorem castUint32_lt (i : Int) : castUint32 i < 4294967296 := by
  have h1 : 0 ≤ i % 4294967296 := Int.emod_nonneg i (by norm_num)
  have h2 : i % 4294967296 < 4294967296 := Int.emod_lt_of_pos i (by norm_num)
  unfold castUint32
  omega

theorem bitwise_binary_stores_finite (vs : List TVal) (bot : Nat)
    (x y : TVal) (iz : Nat) (op : BitOp) (vs' : List TVal)
    (h : duk__vm_bitwise_binary_op vs bot x y iz op = some vs') :
    ∃ r : Int, vs'[bot + iz]? = some (.num (.finite r)) := by
  unfold duk__vm_bitwise_binary_op at h
  split at h
  · split at h
    · obtain rfl := Option.some.inj h
      exact ⟨_, List.getElem?_set_eq_of_lt _ (by assumption)⟩
    · exact absurd h (by simp)
  · exact absurd h (by simp)

/-! ## Claim theorems: the arithmetic / bitwise kernel -/

/-- C6: for the shift opcodes (BASL, BASR, BLSR) the shift count is
`ToInt32`/`ToUint32`-coerced and masked to its low 5 bits -- two counts
congruent mod 32 behave identically, and concretely `1 << 32` evaluates
to `1`; the BASL result is interpreted as a signed 32-bit integer
(`4294967295 << 1` evaluates to `-2`), the BLSR result as an unsigned
32-bit integer, and the stored result is always an exact integral (hence
never-NaN) double. -/
theorem shift_opcodes_spec :
    (∀ (op : BitOp) (i1 i2 i2' : Int),
       (op = .BASL ∨ op = .BASR ∨ op = .BLSR) →
       castUint32 i2 % 32 = castUint32 i2' % 32 →
       duk__vm_bitwise_core op i1 i2 = duk__vm_bitwise_core op i1 i2') ∧
    duk__vm_bitwise_binary_op [.null] 0 (.num (.finite 1)) (.num (.finite 32)) 0
        .BASL = some [.num (.finite 1)] ∧
    duk__vm_bitwise_binary_op [.null] 0 (.num (.finite 4294967295))
        (.num (.finite 1)) 0 .BASL = some [.num (.finite (-2))] ∧
    (∀ i1 i2 : Int, -2147483648 ≤ duk__vm_bitwise_core .BASL i1 i2 ∧
       duk__vm_bitwise_core .BASL i1 i2 < 2147483648) ∧
    (∀ i1 i2 : Int, 0 ≤ duk__vm_bitwise_core .BLSR i1 i2 ∧
       duk__vm_bitwise_core .BLSR i1 i2 < 4294967296) ∧
    (∀ (vs : List TVal) (bot : Nat) (x y : TVal) (iz : Nat) (op : BitOp)
       (vs' : List TVal),
       duk__vm_bitwise_binary_op vs bot x y iz op = some vs' →
       ∃ r : Int, vs'[bot + iz]? = some (.num (.finite r))) := by
  refine ⟨?_, by decide, by decide, ?_, ?_, ?_⟩
  · rintro op i1 i2 i2' (rfl | rfl | rfl) h <;>
      simp only [duk__vm_bitwise_core, h]
  · intro i1 i2
    exact wrapInt32_range _
  · intro i1 i2
    constructor
    · exact Int.ofNat_nonneg _
    · have h := Nat.div_le_self (castUint32 i1) (2 ^ (castUint32 i2 % 32))
      have h2 := castUint32_lt i1
      simp only [duk__vm_bitwise_core]
      exact_mod_cast lt_of_le_of_lt h h2
  · exact bitwise_binary_stores_finite

/-- C6 witness: the mask component applied at shift counts 32 and 0. -/
theorem shift_opcodes_spec_witness :
    duk__vm_bitwise_core .BASL 1 32 = duk__vm_bitwise_core .BASL 1 0 :=
  shift_opcodes_spec.1 .BASL 1 32 0 (Or.inl rfl) (by decide)

/-- C8: every numeric value written into a register by the arithmetic,
bitwise and unary helpers is either a non-NaN double or the canonical
normalized NaN; NaN-producing operations always store the canonical
NaN, and the bitwise helpers store exact integers (never NaN). -/
theorem numeric_stores_normalized :
    (∀ (vs : List TVal) (bot : Nat) (raw : DukDouble) (iz : Nat)
       (vs' : List TVal), duk__vm_arith_add_fast vs bot raw iz = some vs' →
       vs'[bot + iz]? = some (.num (normalizeNanCheck raw)) ∧
       (normalizeNanCheck raw).isNormalized = true ∧
       (raw.isNan = true → normalizeNanCheck raw = .nan canonicalNanBits)) ∧
    (∀ (vs : List TVal) (bot : Nat) (raw : DukDouble) (iz : Nat)
       (vs' : List TVal), duk__vm_arith_binary_store vs bot raw iz = some vs' →
       vs'[bot + iz]? = some (.num (normalizeNanCheck raw)) ∧
       (normalizeNanCheck raw).isNormalized = true ∧
       (raw.isNan = true → normalizeNanCheck raw = .nan canonicalNanBits)) ∧
    (∀ (vs : List TVal) (bot : Nat) (raw : DukDouble) (iz : Nat)
       (vs' : List TVal), duk__vm_arith_unary_store vs bot raw iz = some vs' →
       vs'[bot + iz]? = some (.num (normalizeNanCheck raw)) ∧
       (normalizeNanCheck raw).isNormalized = true ∧
       (raw.isNan = true → normalizeNanCheck raw = .nan canonicalNanBits)) ∧
    (∀ (vs : List TVal) (bot : Nat) (x y : TVal) (iz : Nat) (op : BitOp)
       (vs' : List TVal),
       duk__vm_bitwise_binary_op vs bot x y iz op = some vs' →
       ∃ r : Int, vs'[bot + iz]? = some (.num (.finite r))) ∧
    (∀ (vs : List TVal) (bot : Nat) (x : TVal) (iz : Nat) (vs' : List TVal),
       duk__vm_bitwise_not vs bot x iz = some vs' →
       ∃ r : Int, vs'[bot + iz]? = some (.num (.finite r))) := by
  have store : ∀ (vs : List TVal) (bot : Nat) (raw : DukDouble) (iz : Nat)
      (vs' : List TVal),
      (if bot + iz < vs.length then
         some (vs.set (bot + iz) (.num (normalizeNanCheck raw))) else none) = some vs' →
      vs'[bot + iz]? = some (.num (normalizeNanCheck raw)) ∧
      (normalizeNanCheck raw).isNormalized = true ∧
      (raw.isNan = true → normalizeNanCheck raw = .nan canonicalNanBits) := by
    intro vs bot raw iz vs' h
    by_cases hlt : bot + iz < vs.length
    · rw [if_pos hlt] at h
      obtain rfl := Option.some.inj h
      exact ⟨List.getElem?_set_eq_of_lt _ hlt, normalizeNanCheck_isNormalized raw,
             normalizeNanCheck_of_isNan raw⟩
    · rw [if_neg hlt] at h
      exact absurd h (by simp)
  refine ⟨fun vs bot raw iz vs' h => store vs bot raw iz vs' h,
          fun vs bot raw iz vs' h => store vs bot raw iz vs' h,
          fun vs bot raw iz vs' h => store vs bot raw iz vs' h,
          bitwise_binary_stores_finite, ?_⟩
  intro vs bot x iz vs' h
  unfold duk__vm_bitwise_not at h
  split at h
  · split at h
    · obtain rfl := Option.some.inj h
      exact ⟨_, List.getElem?_set_eq_of_lt _ (by assumption)⟩
    · exact absurd h (by simp)
  · exact absurd h (by simp)

/-! ### Value stack reconfiguration -/

theorem dukSetTop_valstack_bottom (t : DukThread) (n : Nat) :
    (dukSetTop t n).valstack_bottom = t.valstack_bottom := by
  simp only [dukSetTop]; split <;> rfl

theorem dukSetTop_callstack (t : DukThread) (n : Nat) :
    (dukSetTop t n).callstack = t.callstack := by
  simp only [dukSetTop]; split <;> rfl

theorem dukSetTop_catchstack (t : DukThread) (n : Nat) :
    (dukSetTop t n).catchstack = t.catchstack := by
  simp only [dukSetTop]; split <;> rfl

theorem dukSetTop_state (t : DukThread) (n : Nat) :
    (dukSetTop t n).state = t.state := by
  simp only [dukSetTop]; split <;> rfl

theorem dukSetTop_resumer (t : DukThread) (n : Nat) :
    (dukSetTop t n).resumer = t.resumer := by
  simp only [dukSetTop]; split <;> rfl

theorem dukSetTop_length (t : DukThread) (n : Nat) :
    (dukSetTop t n).valstack.length = t.valstack_bottom + n := by
  simp only [dukSetTop]
  split
  next hle => simp only [List.length_take]; omega
  next hle => simp only [List.length_append, List.length_replicate]; omega

theorem dukSetTop_getElem (t : DukThread) (n j : Nat)
    (hj : j < t.valstack_bottom + n) :
    (dukSetTop t n).valstack[j]? =
      if j < t.valstack.length then t.valstack[j]?
      else some .undefinedActual := by
  simp only [dukSetTop]
  split
  next hle =>
    have hjl : j < t.valstack.length := lt_of_lt_of_le hj hle
    rw [if_pos hjl]
    simp only [List.getElem?_take]
    rw [if_pos hj]
  next hle =>
    by_cases hjl : j < t.valstack.length
    · rw [if_pos hjl]
      simp only [List.getElem?_append]
      rw [if_pos hjl]
    · rw [if_neg hjl]
      simp only [List.getElem?_append]
      rw [if_neg hjl, List.getElem?_replicate, if_pos (by omega)]

theorem dukSetTop_alloc (t : DukThread) (n : Nat) :
    (dukSetTop t n).valstack_alloc =
      if t.valstack_bottom + n ≤ t.valstack.length then t.valstack_alloc
      else max t.valstack_alloc (t.valstack_bottom + n) := by
  simp only [dukSetTop]
  split
  next hle => rfl
  next hle => rfl

/-- Full contract of `duk__reconfig_valstack`, shared by the unwinding
lemmas below. -/
theorem duk__reconfig_valstack_spec (t : DukThread)
    (act_idx retval_count : Nat) (act : Activation) (nregs : Nat)
    (t' : DukThread)
    (hget : t.callstack[act_idx]? = some act)
    (hfunc : act.func = .compiled nregs)
    (hbr : act.idx_bottom ≤ act.idx_retval)
    (hwin : act.idx_retval + retval_count ≤ act.idx_bottom + nregs)
    (h : duk__reconfig_valstack t act_idx retval_count = some t') :
    t'.valstack_bottom = act.idx_bottom ∧
    t'.valstack.length = act.idx_bottom + nregs ∧
    t'.valstack_alloc = act.idx_bottom + nregs + DUK_VALSTACK_INTERNAL_EXTRA ∧
    (∀ j, j < act.idx_retval + retval_count →
       t'.valstack[j]? = if j < t.valstack.length then t.valstack[j]?
                         else some .undefinedActual) ∧
    (∀ j, act.idx_retval + retval_count ≤ j → j < act.idx_bottom + nregs →
       t'.valstack[j]? = some .undefinedActual) ∧
    t'.callstack = t.callstack := by
  unfold duk__reconfig_valstack at h
  rw [hget] at h
  simp only [hfunc] at h
  rw [if_neg (by omega)] at h
  obtain rfl := Option.some.inj h
  set t1 : DukThread := { t with valstack_bottom := act.idx_bottom } with ht1
  set clampN : Nat :=
    ((act.idx_retval : Int) - (act.idx_bottom : Int) + (retval_count : Int)).toNat
    with hclampN
  have hclamp : act.idx_bottom + clampN = act.idx_retval + retval_count := by
    rw [hclampN]; omega
  set t2 : DukThread := dukSetTop t1 clampN with ht2
  have h2len : t2.valstack.length = act.idx_retval + retval_count := by
    rw [ht2, dukSetTop_length, ht1]; exact hclamp
  have h2bot : t2.valstack_bottom = act.idx_bottom := by
    rw [ht2, dukSetTop_valstack_bottom]
  set t3 : DukThread := dukValstackResizeRaw t2
    (t2.valstack_bottom + nregs + DUK_VALSTACK_INTERNAL_EXTRA) with ht3
  have h3len : t3.valstack.length = act.idx_retval + retval_count := h2len
  have h3bot : t3.valstack_bottom = act.idx_bottom := h2bot
  have h3alloc : t3.valstack_alloc =
      act.idx_bottom + nregs + DUK_VALSTACK_INTERNAL_EXTRA := by
    rw [ht3]
    unfold dukValstackResizeRaw
    simp only [h2bot, h2len]
    unfold DUK_VALSTACK_INTERNAL_EXTRA
    omega
  refine ⟨?_, ?_, ?_, ?_, ?_, ?_⟩
  · rw [dukSetTop_valstack_bottom, h3bot]
  · rw [dukSetTop_length, h3bot]
  · rw [dukSetTop_alloc, h3bot, h3len, h3alloc]
    unfold DUK_VALSTACK_INTERNAL_EXTRA
    split <;> omega
  · intro j hj
    rw [dukSetTop_getElem _ _ _ (by rw [h3bot]; omega), h3len, if_pos hj]
    have ht3v : t3.valstack = t2.valstack := rfl
    rw [ht3v, ht2, dukSetTop_getElem _ _ _ (by rw [ht1]; simp; omega)]
  · intro j hj1 hj2
    rw [dukSetTop_getElem _ _ _ (by rw [h3bot]; omega), h3len, if_neg (by omega)]
  · rw [dukSetTop_callstack, ht3]
    show t2.callstack = t.callstack
    rw [ht2, dukSetTop_callstack]

/-- C7: contract of `duk__reconfig_valstack` on a compiled-function frame
with `retval_count` retval slots: the new `valstack_bottom` is the
frame's `idx_bottom`; the top was first clamped to
`idx_retval - idx_bottom + retval_count` (slots below the clamp point
are preserved, slots at or above it come back as `undefined`); finally
the value stack allocation extends to exactly `nregs` plus the spare and
the top index equals `nregs`. -/
theorem reconfig_valstack_contract (t : DukThread)
    (act_idx retval_count : Nat) (act : Activation) (nregs : Nat)
    (t' : DukThread)
    (hget : t.callstack[act_idx]? = some act)
    (hfunc : act.func = .compiled nregs)
    (hbr : act.idx_bottom ≤ act.idx_retval)
    (hwin : act.idx_retval + retval_count ≤ act.idx_bottom + nregs)
    (h : duk__reconfig_valstack t act_idx retval_count = some t') :
    t'.valstack_bottom = act.idx_bottom ∧
    t'.valstack.length = act.idx_bottom + nregs ∧
    t'.valstack_alloc = act.idx_bottom + nregs + DUK_VALSTACK_INTERNAL_EXTRA ∧
    (∀ j, j < act.idx_retval + retval_count →
       t'.valstack[j]? = if j < t.valstack.length then t.valstack[j]?
                         else some .undefinedActual) ∧
    (∀ j, act.idx_retval + retval_count ≤ j → j < act.idx_bottom + nregs →
       t'.valstack[j]? = some .undefinedActual) ∧
    t'.callstack = t.callstack :=
  duk__reconfig_valstack_spec t act_idx retval_count act nregs t' hget hfunc
    hbr hwin h

/-- C7 witness: the contract applied to a concrete reconfiguration. -/
theorem reconfig_valstack_contract_witness :
    reconfigWitnessResult.valstack_bottom = reconfigWitnessAct.idx_bottom ∧
    reconfigWitnessResult.valstack.length = reconfigWitnessAct.idx_bottom + 2 ∧
    reconfigWitnessResult.valstack_alloc =
      reconfigWitnessAct.idx_bottom + 2 + DUK_VALSTACK_INTERNAL_EXTRA ∧
    (∀ j, j < reconfigWitnessAct.idx_retval + 1 →
       reconfigWitnessResult.valstack[j]? =
         if j < reconfigWitnessThread.valstack.length then
           reconfigWitnessThread.valstack[j]?
         else some .undefinedActual) ∧
    (∀ j, reconfigWitnessAct.idx_retval + 1 ≤ j →
       j < reconfigWitnessAct.idx_bottom + 2 →
       reconfigWitnessResult.valstack[j]? = some .undefinedActual) ∧
    reconfigWitnessResult.callstack = reconfigWitnessThread.callstack :=
  reconfig_valstack_contract reconfigWitnessThread 0 1 reconfigWitnessAct 2
    reconfigWitnessResult (by decide) (by decide) (by decide) (by decide)
    (by decide)

/-! ### Generic helpers for the catch/finally machinery -/

theorem getLast?_take_succ {α} (l : List α) (k : Nat) (hk : k < l.length) :
    (l.take (k + 1)).getLast? = l[k]? := by
  rw [List.getLast?_eq_getElem?, List.length_take]
  have hmin : min (k + 1) l.length = k + 1 := by omega
  rw [hmin]
  simp only [Nat.add_sub_cancel]
  rw [List.getElem?_take, if_pos (Nat.lt_succ_self k)]

theorem lt_of_getElem?_eq_some {α} {l : List α} {i : Nat} {a : α}
    (h : l[i]? = some a) : i < l.length := by
  by_contra hc
  rw [List.getElem?_eq_none (by omega)] at h
  exact absurd h (by simp)

theorem setTopActivation_spec {t : DukThread} {act : Activation}
    (h : t.callstack.getLast? = some act) (f : Activation → Activation) :
    (setTopActivation t f).callstack = t.callstack.dropLast ++ [f act] ∧
    (setTopActivation t f).callstack.getLast? = some (f act) ∧
    (setTopActivation t f).callstack.length = t.callstack.length ∧
    (setTopActivation t f).valstack = t.valstack ∧
    (setTopActivation t f).catchstack = t.catchstack ∧
    (setTopActivation t f).valstack_bottom = t.valstack_bottom ∧
    (setTopActivation t f).valstack_alloc = t.valstack_alloc ∧
    (setTopActivation t f).state = t.state ∧
    (setTopActivation t f).resumer = t.resumer := by
  have hne : t.callstack ≠ [] := by
    intro he; rw [he] at h; exact absurd h (by simp)
  unfold setTopActivation
  rw [h]
  refine ⟨rfl, ?_, ?_, rfl, rfl, rfl, rfl, rfl, rfl⟩
  · simp [List.getLast?_concat]
  · simp only [List.length_append, List.length_dropLast, List.length_cons,
      List.length_nil]
    have : 0 < t.callstack.length := List.length_pos.mpr hne
    omega

theorem ljTypeOfCode_toCode (ty : LjType) : ljTypeOfCode ty.toCode = some ty := by
  cases ty <;> rfl

/-- Full specification of `duk__handle_catch_or_finally` under the frame
invariants the source asserts: the two scratch slots receive `value1` and
the numeric transfer kind, the catch stack is unwound to the catcher
(kept) and the call stack to its frame, the value stack is reconfigured
to the frame's `nregs` window, the PC is set to `pc_base + 1` for finally
(`+ 0` for catch), and the finally-enabled (resp. catch-enabled) flag of
the catcher is cleared. -/
theorem handle_catch_or_finally_spec (t : DukThread) (lj : LjState)
    (cat_idx : Nat) (is_finally : Bool) (cat : Catcher) (act : Activation)
    (nregs : Nat)
    (hcat : t.catchstack[cat_idx]? = some cat)
    (hbase : cat.idx_base + 1 < t.valstack.length)
    (hcsi : cat.callstack_index < t.callstack.length)
    (hgetact : t.callstack[cat.callstack_index]? = some act)
    (hfunc : act.func = .compiled nregs)
    (hwin : cat.idx_base + 1 < act.idx_bottom + nregs)
    (hvar : is_finally = false → cat.catchBindingEnabled = true →
      ∃ nm, cat.h_varname = some nm) :
    ∃ t', duk__handle_catch_or_finally t lj cat_idx is_finally = some t' ∧
      t'.valstack[cat.idx_base]? = some lj.value1 ∧
      t'.valstack[cat.idx_base + 1]? = some (.num (.finite lj.type.toCode)) ∧
      t'.valstack_bottom = act.idx_bottom ∧
      t'.valstack.length = act.idx_bottom + nregs ∧
      t'.callstack.length = cat.callstack_index + 1 ∧
      (∃ act', t'.callstack.getLast? = some act' ∧
        act'.pc = cat.pc_base + (if is_finally then 1 else 0) ∧
        act'.func = act.func ∧ act'.idx_bottom = act.idx_bottom ∧
        act'.idx_retval = act.idx_retval) ∧
      t'.catchstack.length = cat_idx + 1 ∧
      (∃ cat', t'.catchstack[cat_idx]? = some cat' ∧
        cat'.finallyEnabled = (!is_finally && cat.finallyEnabled) ∧
        cat'.catchEnabled = (is_finally && cat.catchEnabled) ∧
        cat'.pc_base = cat.pc_base ∧ cat'.idx_base = cat.idx_base ∧
        cat'.catType = cat.catType ∧
        cat'.callstack_index = cat.callstack_index) ∧
      t'.state = t.state ∧ t'.resumer = t.resumer := by
  have hcatlen : cat_idx < t.catchstack.length := lt_of_getElem?_eq_some hcat
  -- the intermediate thread after the scratch writes and the unwinds
  set vs1 : List TVal :=
    (t.valstack.set cat.idx_base lj.value1).set (cat.idx_base + 1)
      (.num (.finite lj.type.toCode)) with hvs1
  set t1 : DukThread := ({ t with valstack := vs1, catchstack := t.catchstack.take (cat_idx + 1), callstack := t.callstack.take (cat.callstack_index + 1) }) with ht1
  have h1last : t1.callstack.getLast? = some act := by
    rw [ht1]
    show (t.callstack.take (cat.callstack_index + 1)).getLast? = some act
    rw [getLast?_take_succ _ _ hcsi, hgetact]
  have hvs1len : vs1.length = t.valstack.length := by
    rw [hvs1]; simp [List.length_set]
  set t2 : DukThread := dukSetTop { t1 with valstack_bottom := act.idx_bottom }
      nregs with ht2
  have h2bot : t2.valstack_bottom = act.idx_bottom := by
    rw [ht2, dukSetTop_valstack_bottom]
  have h2len : t2.valstack.length = act.idx_bottom + nregs := by
    rw [ht2, dukSetTop_length]
  have h2cs : t2.callstack = t1.callstack := by rw [ht2, dukSetTop_callstack]
  have h2cat : t2.catchstack = t1.catchstack := by rw [ht2, dukSetTop_catchstack]
  have h2slot0 : t2.valstack[cat.idx_base]? = some lj.value1 := by
    rw [ht2, dukSetTop_getElem _ _ _
      (show cat.idx_base < act.idx_bottom + nregs by omega)]
    show (if cat.idx_base < vs1.length then vs1[cat.idx_base]? else _) = _
    rw [if_pos (by omega), hvs1,
        List.getElem?_set_ne (by omega),
        List.getElem?_set_eq_of_lt _ (by omega)]
  have h2slot1 : t2.valstack[cat.idx_base + 1]? =
      some (.num (.finite lj.type.toCode)) := by
    rw [ht2, dukSetTop_getElem _ _ _
      (show cat.idx_base + 1 < act.idx_bottom + nregs by omega)]
    show (if cat.idx_base + 1 < vs1.length then vs1[cat.idx_base + 1]? else _) = _
    rw [if_pos (by omega), hvs1,
        List.getElem?_set_eq_of_lt _ (by simp only [List.length_set]; omega)]
  have h2last : t2.callstack.getLast? = some act := by rw [h2cs]; exact h1last
  set pcf : Activation → Activation := fun a =>
    { a with pc := cat.pc_base + (if is_finally then 1 else 0) } with hpcf
  set t3 : DukThread := setTopActivation t2 pcf with ht3
  obtain ⟨h3cs, h3last, h3cslen, h3vs, h3cat, h3bot, h3alloc, h3st, h3rs⟩ :=
    setTopActivation_spec h2last pcf
  rw [← ht3] at h3cs h3last h3cslen h3vs h3cat h3bot h3alloc h3st h3rs
  have h3vslot0 : t3.valstack[cat.idx_base]? = some lj.value1 := by
    rw [h3vs]; exact h2slot0
  have h3vslot1 : t3.valstack[cat.idx_base + 1]? =
      some (.num (.finite lj.type.toCode)) := by
    rw [h3vs]; exact h2slot1
  have h3cslen2 : t3.callstack.length = cat.callstack_index + 1 := by
    rw [h3cslen, h2cs, ht1]
    show (t.callstack.take (cat.callstack_index + 1)).length = _
    rw [List.length_take]; omega
  have h3catstk : t3.catchstack = t.catchstack.take (cat_idx + 1) := by
    rw [h3cat, h2cat]
  have h3catlen : t3.catchstack.length = cat_idx + 1 := by
    rw [h3catstk, List.length_take]; omega
  have h2st : t2.state = t.state := by rw [ht2, dukSetTop_state]
  have h2rs : t2.resumer = t.resumer := by rw [ht2, dukSetTop_resumer]
  -- now evaluate the function itself
  unfold duk__handle_catch_or_finally
  rw [hcat]
  simp only [Option.bind_eq_bind, Option.some_bind]
  rw [if_pos hbase]
  have h1last2 : (List.take (cat.callstack_index + 1) t.callstack).getLast? =
      some act := by
    rw [getLast?_take_succ _ _ hcsi, hgetact]
  rw [h1last2]
  simp only [Option.some_bind]
  simp only [hfunc]
  cases hfin : is_finally with
  | true =>
    subst hfin
    rw [if_neg (show ¬((!true && cat.catchBindingEnabled) = true) by simp)]
    refine ⟨_, rfl, ?_, ?_, ?_, ?_, ?_, ?_, ?_, ?_, ?_, ?_⟩
    · show t3.valstack[cat.idx_base]? = _
      exact h3vslot0
    · show t3.valstack[cat.idx_base + 1]? = _
      exact h3vslot1
    · show t3.valstack_bottom = _
      rw [h3bot, h2bot]
    · show t3.valstack.length = _
      rw [h3vs, h2len]
    · show t3.callstack.length = _
      exact h3cslen2
    · exact ⟨pcf act, h3last, rfl, hfunc, rfl, rfl⟩
    · show (t3.catchstack.set cat_idx _).length = _
      rw [List.length_set, h3catlen]
    · exact ⟨_, List.getElem?_set_eq_of_lt _ (by rw [h3catlen]; omega),
        by simp, by simp, rfl, rfl, rfl, rfl⟩
    · show t3.state = _
      rw [h3st, h2st]
    · show t3.resumer = _
      rw [h3rs, h2rs]
  | false =>
    subst hfin
    by_cases hcbe : cat.catchBindingEnabled = true
    · obtain ⟨nm, hnm⟩ := hvar rfl hcbe
      rw [if_pos (show (!false && cat.catchBindingEnabled) = true by simp [hcbe]), hnm]
      set lexf : Activation → Activation := fun a =>
        ({ a with lex_env := some (.declEnv nm lj.value1
            (a.lex_env.getD (LexEnv.base 0))) }) with hlexf
      obtain ⟨h4cs, h4last, h4cslen, h4vs, h4cat, h4bot, h4alloc, h4st, h4rs⟩ :=
        setTopActivation_spec h3last lexf
      refine ⟨_, rfl, ?_, ?_, ?_, ?_, ?_, ?_, ?_, ?_, ?_, ?_⟩
      · show (setTopActivation t3 lexf).valstack[cat.idx_base]? = _
        rw [h4vs]; exact h3vslot0
      · show (setTopActivation t3 lexf).valstack[cat.idx_base + 1]? = _
        rw [h4vs]; exact h3vslot1
      · show (setTopActivation t3 lexf).valstack_bottom = _
        rw [h4bot, h3bot, h2bot]
      · show (setTopActivation t3 lexf).valstack.length = _
        rw [h4vs, h3vs, h2len]
      · show (setTopActivation t3 lexf).callstack.length = _
        rw [h4cslen, h3cslen2]
      · exact ⟨lexf (pcf act), h4last, rfl, hfunc, rfl, rfl⟩
      · show ((setTopActivation t3 lexf).catchstack.set cat_idx _).length = _
        rw [List.length_set, h4cat, h3catlen]
      · exact ⟨_, List.getElem?_set_eq_of_lt _ (by rw [h4cat, h3catlen]; omega),
          by simp, by simp, rfl, rfl, rfl, rfl⟩
      · show (setTopActivation t3 lexf).state = _
        rw [h4st, h3st, h2st]
      · show (setTopActivation t3 lexf).resumer = _
        rw [h4rs, h3rs, h2rs]
    · rw [if_neg (show ¬((!false && cat.catchBindingEnabled) = true) by simp [hcbe])]
      refine ⟨_, rfl, ?_, ?_, ?_, ?_, ?_, ?_, ?_, ?_, ?_, ?_⟩
      · show t3.valstack[cat.idx_base]? = _
        exact h3vslot0
      · show t3.valstack[cat.idx_base + 1]? = _
        exact h3vslot1
      · show t3.valstack_bottom = _
        rw [h3bot, h2bot]
      · show t3.valstack.length = _
        rw [h3vs, h2len]
      · show t3.callstack.length = _
        exact h3cslen2
      · exact ⟨pcf act, h3last, rfl, hfunc, rfl, rfl⟩
      · show (t3.catchstack.set cat_idx _).length = _
        rw [List.length_set, h3catlen]
      · exact ⟨_, List.getElem?_set_eq_of_lt _ (by rw [h3catlen]; omega),
          by simp, by simp, rfl, rfl, rfl, rfl⟩
      · show t3.state = _
        rw [h3st, h2st]
      · show t3.resumer = _
        rw [h3rs, h2rs]

theorem toCode_inj : ∀ a b : LjType, a.toCode = b.toCode → a = b := by
  intro a b
  cases a <;> cases b <;> decide

/-- C1: a non-local transfer of kind return, throw, break or continue
intercepted by a finally-enabled TCF catcher of the current frame writes
`value1` into `valstack[cat.idx_base]` and the transfer kind as a number
into `valstack[cat.idx_base + 1]`, clears the catcher's finally-enabled
flag and sets the frame's PC to `pc_base + 1` before dispatch restarts;
the subsequent `ENDFIN` reads those two slots and, when the recorded
kind is `Normal`, unwinds the catcher and falls through, otherwise it
re-raises a fresh transfer of the recorded kind carrying the saved
value. -/
theorem finally_interception_and_endfin :
    (∀ (t : DukThread) (lj : LjState) (cat_idx : Nat) (cat : Catcher)
       (act : Activation) (nregs : Nat),
       (lj.type = .RETURN ∨ lj.type = .THROW ∨ lj.type = .BREAK ∨
        lj.type = .CONTINUE) →
       t.catchstack[cat_idx]? = some cat →
       cat.idx_base + 1 < t.valstack.length →
       cat.callstack_index < t.callstack.length →
       t.callstack[cat.callstack_index]? = some act →
       act.func = .compiled nregs →
       cat.idx_base + 1 < act.idx_bottom + nregs →
       ∃ t', duk__handle_catch_or_finally t lj cat_idx true = some t' ∧
         t'.valstack[cat.idx_base]? = some lj.value1 ∧
         t'.valstack[cat.idx_base + 1]? =
           some (.num (.finite lj.type.toCode)) ∧
         (∃ cat', t'.catchstack[cat_idx]? = some cat' ∧
            cat'.finallyEnabled = false) ∧
         (∃ act', t'.callstack.getLast? = some act' ∧
            act'.pc = cat.pc_base + 1)) ∧
    (∀ (t : DukThread) (cat : Catcher),
       t.catchstack.getLast? = some cat →
       t.callstack.length ≠ 0 →
       cat.callstack_index = t.callstack.length - 1 →
       t.valstack[cat.idx_base + 1]? =
         some (.num (.finite LjType.NORMAL.toCode)) →
       DUK_EXTRAOP_ENDFIN_exec t = some (.normal
         { t with catchstack := t.catchstack.take (t.catchstack.length - 1) })) ∧
    (∀ (t : DukThread) (cat : Catcher) (v : TVal) (ty : LjType),
       t.catchstack.getLast? = some cat →
       t.callstack.length ≠ 0 →
       cat.callstack_index = t.callstack.length - 1 →
       t.valstack[cat.idx_base + 1]? = some (.num (.finite ty.toCode)) →
       t.valstack[cat.idx_base]? = some v →
       ty ≠ .NORMAL →
       DUK_EXTRAOP_ENDFIN_exec t = some (.longjmp t
         { type := ty, value1 := v, value2 := .undefinedUnused,
           iserror := ty == .THROW })) := by
  refine ⟨?_, ?_, ?_⟩
  · intro t lj cat_idx cat act nregs _ hcat hbase hcsi hgetact hfunc hwin
    obtain ⟨t', heq, h1, h2, _, _, _, hact6, _, hcat8, _, _⟩ :=
      handle_catch_or_finally_spec t lj cat_idx true cat act nregs hcat hbase
        hcsi hgetact hfunc hwin (fun h => Bool.noConfusion h)
    obtain ⟨act', ha1, ha2, _⟩ := hact6
    obtain ⟨cat', hc1, hcfin, _⟩ := hcat8
    refine ⟨t', heq, h1, h2, ⟨cat', hc1, ?_⟩, ⟨act', ha1, ?_⟩⟩
    · rw [hcfin]; simp
    · rw [ha2]; simp
  · intro t cat hlast hne hcsi hslot
    unfold DUK_EXTRAOP_ENDFIN_exec
    rw [hlast]
    simp only [Option.bind_eq_bind, Option.some_bind]
    rw [if_pos ⟨hne, hcsi⟩, hslot]
    rfl
  · intro t cat v ty hlast hne hcsi hslot1 hslot0 hty
    unfold DUK_EXTRAOP_ENDFIN_exec
    rw [hlast]
    simp only [Option.bind_eq_bind, Option.some_bind]
    rw [if_pos ⟨hne, hcsi⟩]
    simp only [hslot1]
    rw [if_neg (show ¬((ty.toCode : Int) = (LjType.NORMAL.toCode : Int)) from
      fun h => hty (toCode_inj _ _ (by exact_mod_cast h)))]
    rw [if_neg (show ¬((ty.toCode : Int) < 0) by omega)]
    simp only [hslot0, Int.toNat_natCast, ljTypeOfCode_toCode]
    unfold duk_err_setup_heap_ljstate
    rw [List.getLast?_concat]
    simp only [List.dropLast_concat]

/-- C1 witness: a concrete return intercepted by a finally, a concrete
normal-completion ENDFIN and a concrete abrupt-completion ENDFIN. -/
theorem finally_interception_and_endfin_witness :
    (∃ t', duk__handle_catch_or_finally c1Thread c1Lj 0 true = some t' ∧
       t'.valstack[c1Cat.idx_base]? = some c1Lj.value1 ∧
       t'.valstack[c1Cat.idx_base + 1]? =
         some (.num (.finite c1Lj.type.toCode)) ∧
       (∃ cat', t'.catchstack[0]? = some cat' ∧
          cat'.finallyEnabled = false) ∧
       (∃ act', t'.callstack.getLast? = some act' ∧
          act'.pc = c1Cat.pc_base + 1)) ∧
    DUK_EXTRAOP_ENDFIN_exec c1EndfinNormal = some (.normal
      { c1EndfinNormal with catchstack := c1EndfinNormal.catchstack.take (c1EndfinNormal.catchstack.length - 1) }) ∧
    DUK_EXTRAOP_ENDFIN_exec c1EndfinAbrupt = some (.longjmp c1EndfinAbrupt
      { type := .RETURN, value1 := .num (.finite 42),
        value2 := .undefinedUnused, iserror := LjType.RETURN == .THROW }) :=
  ⟨finally_interception_and_endfin.1 c1Thread c1Lj 0 c1Cat c1Act 3
      (Or.inl rfl) (by decide) (by decide) (by decide) (by decide) (by decide)
      (by decide),
   finally_interception_and_endfin.2.1 c1EndfinNormal c1EndfinCat
      (by decide) (by decide) (by decide) (by decide),
   finally_interception_and_endfin.2.2 c1EndfinAbrupt c1EndfinCat
      (.num (.finite 42)) .RETURN
      (by decide) (by decide) (by decide) (by decide) (by decide) (by decide)⟩

/-- C5: the THROW opcode populates the longjmp state with the very value
of its source register -- errors are augmented at construction, not at
throw, so no re-augmentation happens here -- and the catch handler then
delivers exactly `lj.value1` into the catcher's scratch slot, so the
value observed at the catch site is identical to the thrown one, also
for a previously caught and re-thrown error. -/
theorem throw_opcode_identity :
    (∀ (t : DukThread) (b : Nat) (v : TVal),
       t.valstack[t.valstack_bottom + b]? = some v →
       DUK_EXTRAOP_THROW_exec t b = some (t,
         { type := .THROW, value1 := v, value2 := .undefinedUnused,
           iserror := true })) ∧
    (∀ (t : DukThread) (v : TVal) (cat_idx : Nat) (cat : Catcher)
       (act : Activation) (nregs : Nat),
       t.catchstack[cat_idx]? = some cat →
       cat.idx_base + 1 < t.valstack.length →
       cat.callstack_index < t.callstack.length →
       t.callstack[cat.callstack_index]? = some act →
       act.func = .compiled nregs →
       cat.idx_base + 1 < act.idx_bottom + nregs →
       (cat.catchBindingEnabled = true → ∃ nm, cat.h_varname = some nm) →
       ∃ t', duk__handle_catch_or_finally t
           { type := .THROW, value1 := v, value2 := .undefinedUnused,
             iserror := true } cat_idx false = some t' ∧
         t'.valstack[cat.idx_base]? = some v) := by
  constructor
  · intro t b v hv
    unfold DUK_EXTRAOP_THROW_exec
    rw [hv]
    simp only [Option.bind_eq_bind, Option.some_bind]
    unfold duk_err_setup_heap_ljstate
    rw [List.getLast?_concat]
    simp only [List.dropLast_concat]
    rfl
  · intro t v cat_idx cat act nregs hcat hbase hcsi hgetact hfunc hwin hvar
    obtain ⟨t', heq, h1, _⟩ :=
      handle_catch_or_finally_spec t
        { type := .THROW, value1 := v, value2 := .undefinedUnused,
          iserror := true } cat_idx false cat act nregs hcat hbase hcsi
        hgetact hfunc hwin (fun _ => hvar)
    exact ⟨t', heq, h1⟩

/-- C5 witness: a concrete THROW of an object value and its catch. -/
theorem throw_opcode_identity_witness :
    (DUK_EXTRAOP_THROW_exec c1Thread 1 = some (c1Thread,
       { type := .THROW, value1 := .null, value2 := .undefinedUnused,
         iserror := true })) ∧
    (∃ t', duk__handle_catch_or_finally c1Thread
        { type := .THROW, value1 := .obj 9, value2 := .undefinedUnused,
          iserror := true } 0 false = some t' ∧
      t'.valstack[c1Cat.idx_base]? = some (.obj 9)) :=
  ⟨throw_opcode_identity.1 c1Thread 1 .null (by decide),
   throw_opcode_identity.2 c1Thread (.obj 9) 0 c1Cat c1Act 3
     (by decide) (by decide) (by decide) (by decide) (by decide) (by decide)
     (fun h => absurd h (by decide))⟩

/-! ### Break / continue -/

theorem handle_label_spec (t : DukThread) (lj : LjState) (cat_idx : Nat)
    (cat : Catcher) (act : Activation) (nregs : Nat)
    (hcat : t.catchstack[cat_idx]? = some cat)
    (hlast : t.callstack.getLast? = some act)
    (hfunc : act.func = .compiled nregs) :
    ∃ t', duk__handle_label t lj cat_idx = some t' ∧
      (∃ act', t'.callstack.getLast? = some act' ∧
         act'.pc = cat.pc_base + (if lj.type = .CONTINUE then 1 else 0)) ∧
      t'.catchstack = t.catchstack.take (cat_idx + 1) ∧
      t'.valstack = t.valstack ∧ t'.valstack_bottom = t.valstack_bottom ∧
      t'.callstack.length = t.callstack.length := by
  unfold duk__handle_label
  rw [hcat]
  simp only [Option.bind_eq_bind, Option.some_bind]
  rw [hlast]
  simp only [Option.some_bind, hfunc]
  obtain ⟨hcs, hlast2, hlen, hvs, hcat2, hbot, _, _, _⟩ :=
    setTopActivation_spec hlast (fun a =>
      { a with pc := cat.pc_base + (if lj.type = .CONTINUE then 1 else 0) })
  exact ⟨_, rfl, ⟨_, hlast2, rfl⟩, by rw [hcat2], hvs, hbot, hlen⟩

/-- C4: for a break/continue transfer with label id in `value1`, walking
the catchers of the current frame top-down, a finally-enabled TCF
catcher intercepts before any matching Label catcher (no such catcher
sits above a taken label); the matching Label catcher sets the PC to
`pc_base + 0` for break and `pc_base + 1` for continue and unwinds the
catchers above it, keeping the label catcher, and dispatch restarts;
when no catcher of the frame matches, an InternalError is raised. -/
theorem break_continue_dispatch :
    (∀ (cats : List Catcher) (orig lbl n i : Nat),
       duk__walk_break cats orig lbl n = some (i, false) →
       ∀ j cj, i < j → j < n → cats[j]? = some cj →
         cj.callstack_index = orig →
         ¬(cj.catType = .TCF ∧ cj.finallyEnabled = true)) ∧
    (∀ (h : Heap) (entry_thread entry_callstack_top : Nat) (thr : DukThread)
       (topcat : Catcher) (lblN i : Nat) (thr' : DukThread),
       entry_callstack_top ≠ 0 →
       h.threads[h.curr_thread]? = some thr →
       (h.lj.type = .BREAK ∨ h.lj.type = .CONTINUE) →
       thr.catchstack.getLast? = some topcat →
       topcat.callstack_index = thr.callstack.length - 1 →
       h.lj.value1 = .num (.finite (lblN : Int)) →
       duk__walk_break thr.catchstack topcat.callstack_index lblN
         thr.catchstack.length = some (i, true) →
       duk__handle_catch_or_finally thr h.lj i true = some thr' →
       duk__handle_longjmp_step h entry_thread entry_callstack_top =
         .done (wipeLj (h.setThread h.curr_thread thr')) .RESTART) ∧
    (∀ (h : Heap) (entry_thread entry_callstack_top : Nat) (thr : DukThread)
       (topcat cat : Catcher) (act : Activation) (nregs : Nat) (lblN i : Nat),
       entry_callstack_top ≠ 0 →
       h.threads[h.curr_thread]? = some thr →
       (h.lj.type = .BREAK ∨ h.lj.type = .CONTINUE) →
       thr.catchstack.getLast? = some topcat →
       topcat.callstack_index = thr.callstack.length - 1 →
       h.lj.value1 = .num (.finite (lblN : Int)) →
       duk__walk_break thr.catchstack topcat.callstack_index lblN
         thr.catchstack.length = some (i, false) →
       thr.catchstack[i]? = some cat →
       thr.callstack.getLast? = some act →
       act.func = .compiled nregs →
       ∃ thr', duk__handle_label thr h.lj i = some thr' ∧
         duk__handle_longjmp_step h entry_thread entry_callstack_top =
           .done (wipeLj (h.setThread h.curr_thread thr')) .RESTART ∧
         (∃ act', thr'.callstack.getLast? = some act' ∧
            act'.pc = cat.pc_base +
              (if h.lj.type = .CONTINUE then 1 else 0)) ∧
         thr'.catchstack = thr.catchstack.take (i + 1)) ∧
    (∀ (h : Heap) (entry_thread entry_callstack_top : Nat) (thr : DukThread)
       (topcat : Catcher) (lblN : Nat),
       entry_callstack_top ≠ 0 →
       h.threads[h.curr_thread]? = some thr →
       (h.lj.type = .BREAK ∨ h.lj.type = .CONTINUE) →
       thr.catchstack.getLast? = some topcat →
       topcat.callstack_index = thr.callstack.length - 1 →
       h.lj.value1 = .num (.finite (lblN : Int)) →
       duk__walk_break thr.catchstack topcat.callstack_index lblN
         thr.catchstack.length = none →
       duk__handle_longjmp_step h entry_thread entry_callstack_top =
         .done h .INTERNAL_ERROR) := by
  refine ⟨?_, ?_, ?_, ?_⟩
  · intro cats orig lbl n
    induction n with
    | zero =>
      intro i hw
      exact absurd hw (by simp [duk__walk_break])
    | succ k ih =>
      intro i hw
      unfold duk__walk_break at hw
      cases hk : cats[k]? with
      | none => rw [hk] at hw; exact absurd hw (by simp)
      | some c =>
        simp only [hk] at hw
        by_cases h1 : c.callstack_index ≠ orig
        · rw [if_pos h1] at hw; exact absurd hw (by simp)
        · rw [if_neg h1] at hw
          by_cases h2 : c.catType = .TCF ∧ c.finallyEnabled = true
          · rw [if_pos h2] at hw
            exact absurd hw (by simp)
          · rw [if_neg h2] at hw
            by_cases h3 : c.catType = .LABEL ∧ c.label = lbl
            · rw [if_pos h3] at hw
              obtain ⟨rfl, -⟩ : k = i ∧ False = False := by
                have := Option.some.inj hw
                exact ⟨(Prod.mk.injEq _ _ _ _ ▸ this).1, rfl⟩
              intro j cj hij hjk
              omega
            · rw [if_neg h3] at hw
              intro j cj hij hjk hcj hcsi
              by_cases hjeq : j = k
              · subst hjeq
                rw [hk] at hcj
                obtain rfl := Option.some.inj hcj
                exact h2
              · exact ih i hw j cj hij (by omega) hcj hcsi
  · intro h et ect thr topcat lblN i thr' hect hthr hlj htop hcsi hval hwalk
      hhandle
    unfold duk__handle_longjmp_step
    rw [if_neg hect]
    simp only [hthr]
    rcases hlj with hlj | hlj <;>
      simp only [hlj, htop, hval, Option.bind_eq_bind, Option.some_bind] <;>
      rw [if_neg (show ¬((lblN : Int) < 0) by omega)] <;>
      simp only [Int.toNat_natCast, hwalk, hhandle]
  · intro h et ect thr topcat cat act nregs lblN i hect hthr hlj htop hcsi
      hval hwalk hcat hlast hfunc
    obtain ⟨thr', hlabel, hpc, hcatstk, _, _, _⟩ :=
      handle_label_spec thr h.lj i cat act nregs hcat hlast hfunc
    refine ⟨thr', hlabel, ?_, hpc, hcatstk⟩
    unfold duk__handle_longjmp_step
    rw [if_neg hect]
    simp only [hthr]
    rcases hlj with hlj | hlj <;>
      simp only [hlj, htop, hval, Option.bind_eq_bind, Option.some_bind] <;>
      rw [if_neg (show ¬((lblN : Int) < 0) by omega)] <;>
      simp only [Int.toNat_natCast, hwalk, hlabel]
  · intro h et ect thr topcat lblN hect hthr hlj htop hcsi hval hwalk
    unfold duk__handle_longjmp_step
    rw [if_neg hect]
    simp only [hthr]
    rcases hlj with hlj | hlj <;>
      simp only [hlj, htop, hval, Option.bind_eq_bind, Option.some_bind] <;>
      rw [if_neg (show ¬((lblN : Int) < 0) by omega)] <;>
      simp only [Int.toNat_natCast, hwalk]

/-! ### Return handling -/

theorem handle_yield_spec (lj : LjState) (r : DukThread) (act_idx : Nat)
    (act : Activation) (nregs : Nat)
    (hget : r.callstack[act_idx]? = some act)
    (hfunc : act.func = .compiled nregs)
    (hrv : act.idx_retval < r.valstack.length)
    (hbr : act.idx_bottom ≤ act.idx_retval)
    (hwin : act.idx_retval + 1 ≤ act.idx_bottom + nregs)
    (hai : act_idx < r.callstack.length) :
    ∃ r1, duk__handle_yield lj r act_idx = some r1 ∧
      r1.valstack[act.idx_retval]? = some lj.value1 ∧
      r1.valstack_bottom = act.idx_bottom ∧
      r1.valstack.length = act.idx_bottom + nregs ∧
      r1.callstack.length = act_idx + 1 := by
  unfold duk__handle_yield
  rw [hget]
  simp only [Option.bind_eq_bind, Option.some_bind, hfunc]
  rw [if_pos hrv]
  set r2 : DukThread := ({ r with valstack := r.valstack.set act.idx_retval lj.value1, callstack := r.callstack.take (act_idx + 1) }) with hr2
  have hget2 : r2.callstack[act_idx]? = some act := by
    rw [hr2]
    show (r.callstack.take (act_idx + 1))[act_idx]? = some act
    rw [List.getElem?_take, if_pos (Nat.lt_succ_self _)]
    exact hget
  cases hrec : duk__reconfig_valstack r2 act_idx 1 with
  | none =>
    exfalso
    unfold duk__reconfig_valstack at hrec
    rw [hget2] at hrec
    simp only [hfunc] at hrec
    rw [if_neg (by omega)] at hrec
    exact Option.noConfusion hrec
  | some r1 =>
    obtain ⟨hb, hl, _, hcontent, _, hcs⟩ :=
      duk__reconfig_valstack_spec r2 act_idx 1 act nregs r1 hget2 hfunc hbr
        (by omega) hrec
    refine ⟨r1, rfl, ?_, hb, hl, ?_⟩
    · rw [hcontent act.idx_retval (by omega)]
      have hlen2 : r2.valstack.length = r.valstack.length := by
        rw [hr2]; exact List.length_set ..
      rw [if_pos (by omega)]
      rw [hr2]
      show (r.valstack.set act.idx_retval lj.value1)[act.idx_retval]? = _
      exact List.getElem?_set_eq_of_lt _ hrv
    · rw [hcs, hr2]
      show (r.callstack.take (act_idx + 1)).length = act_idx + 1
      rw [List.length_take]
      omega

/-- C2: ordered outcomes of a return transfer. (1) A finally-enabled TCF
catcher of the returning frame found by the top-down same-frame walk
turns the return into a finally interception and dispatch restarts.
(2) Otherwise, at the entry thread's entry depth the return value is
pushed and the executor finishes.  (3) Otherwise, with a compiled caller
in the same thread, the return value is written at the caller's
`idx_retval`, the call stack is unwound by one, the value stack is
reconfigured to the caller's window, and dispatch restarts in the
caller.  (4) Otherwise the thread terminates, the value is delivered at
the resumer's pending `resume()` call site, the resumer becomes the
running current thread, and dispatch restarts. -/
theorem return_transfer_outcomes :
    (∀ (h : Heap) (entry_thread entry_callstack_top : Nat) (thr : DukThread)
       (i s : Nat) (thr' : DukThread),
       entry_callstack_top ≠ 0 →
       h.threads[h.curr_thread]? = some thr →
       h.lj.type = .RETURN →
       thr.callstack.length ≠ 0 →
       duk__walk_return thr.catchstack (thr.callstack.length - 1)
         thr.catchstack.length = (some i, s) →
       duk__handle_catch_or_finally thr h.lj i true = some thr' →
       duk__handle_longjmp_step h entry_thread entry_callstack_top =
         .done (wipeLj (h.setThread h.curr_thread thr')) .RESTART) ∧
    (∀ (h : Heap) (entry_thread entry_callstack_top : Nat) (thr : DukThread)
       (s : Nat),
       entry_callstack_top ≠ 0 →
       h.threads[h.curr_thread]? = some thr →
       h.lj.type = .RETURN →
       thr.callstack.length ≠ 0 →
       duk__walk_return thr.catchstack (thr.callstack.length - 1)
         thr.catchstack.length = (none, s) →
       h.curr_thread = entry_thread →
       thr.callstack.length = entry_callstack_top →
       duk__handle_longjmp_step h entry_thread entry_callstack_top =
         .done (wipeLj (h.setThread h.curr_thread
           ({ thr with valstack := thr.valstack ++ [h.lj.value1] })))
           .FINISHED) ∧
    (∀ (h : Heap) (entry_thread entry_callstack_top : Nat) (thr : DukThread)
       (s : Nat) (caller : Activation) (nregs : Nat),
       entry_callstack_top ≠ 0 →
       h.threads[h.curr_thread]? = some thr →
       h.lj.type = .RETURN →
       duk__walk_return thr.catchstack (thr.callstack.length - 1)
         thr.catchstack.length = (none, s) →
       ¬(h.curr_thread = entry_thread ∧
         thr.callstack.length = entry_callstack_top) →
       thr.callstack.length ≥ 2 →
       thr.callstack[thr.callstack.length - 2]? = some caller →
       caller.func = .compiled nregs →
       caller.idx_retval < thr.valstack.length →
       caller.idx_bottom ≤ caller.idx_retval →
       caller.idx_retval + 1 ≤ caller.idx_bottom + nregs →
       ∃ thr2, duk__handle_longjmp_step h entry_thread entry_callstack_top =
           .done (wipeLj (h.setThread h.curr_thread thr2)) .RESTART ∧
         thr2.valstack[caller.idx_retval]? = some h.lj.value1 ∧
         thr2.callstack.length = thr.callstack.length - 1 ∧
         thr2.valstack_bottom = caller.idx_bottom ∧
         thr2.valstack.length = caller.idx_bottom + nregs) ∧
    (∀ (h : Heap) (entry_thread entry_callstack_top : Nat) (thr : DukThread)
       (s : Nat) (rid : Nat) (resumer : DukThread) (ract : Activation)
       (nregs : Nat),
       entry_callstack_top ≠ 0 →
       h.threads[h.curr_thread]? = some thr →
       h.lj.type = .RETURN →
       duk__walk_return thr.catchstack (thr.callstack.length - 1)
         thr.catchstack.length = (none, s) →
       ¬(h.curr_thread = entry_thread ∧
         thr.callstack.length = entry_callstack_top) →
       thr.callstack.length = 1 →
       thr.resumer = some rid →
       h.threads[rid]? = some resumer →
       resumer.callstack.length ≥ 2 →
       resumer.callstack[resumer.callstack.length - 2]? = some ract →
       ract.func = .compiled nregs →
       ract.idx_retval < resumer.valstack.length →
       ract.idx_bottom ≤ ract.idx_retval →
       ract.idx_retval + 1 ≤ ract.idx_bottom + nregs →
       ∃ r1, duk__handle_yield h.lj resumer (resumer.callstack.length - 2) =
           some r1 ∧
         r1.valstack[ract.idx_retval]? = some h.lj.value1 ∧
         duk__handle_longjmp_step h entry_thread entry_callstack_top =
           .done (wipeLj { (h.setThread h.curr_thread ({ duk_hthread_terminate thr with resumer := none })).setThread rid ({ r1 with state := .RUNNING }) with curr_thread := rid }) .RESTART ∧
         (duk_hthread_terminate thr).state = .TERMINATED) := by
  refine ⟨?_, ?_, ?_, ?_⟩
  · intro h et ect thr i s thr' hect hthr hlj hcs hwalk hhandle
    unfold duk__handle_longjmp_step
    rw [if_neg hect]
    simp only [hthr, hlj]
    rw [if_neg hcs]
    simp only [hwalk, hhandle]
  · intro h et ect thr s hect hthr hlj hcs hwalk hcur hlen
    unfold duk__handle_longjmp_step
    rw [if_neg hect]
    simp only [hthr, hlj]
    rw [if_neg hcs]
    simp only [hwalk]
    rw [if_pos ⟨hcur, hlen⟩]
  · intro h et ect thr s caller nregs hect hthr hlj hwalk hnent hlen2
      hcaller hcfunc hrv hbr hwin
    have hcs : thr.callstack.length ≠ 0 := by omega
    set thr1 : DukThread := ({ thr with valstack := thr.valstack.set caller.idx_retval h.lj.value1, catchstack := thr.catchstack.take s, callstack := thr.callstack.take (thr.callstack.length - 1) }) with hthr1
    have hget1 : thr1.callstack[thr.callstack.length - 2]? = some caller := by
      rw [hthr1]
      show (thr.callstack.take (thr.callstack.length - 1))[thr.callstack.length - 2]? = _
      rw [List.getElem?_take, if_pos (by omega)]
      exact hcaller
    cases hrec : duk__reconfig_valstack thr1 (thr.callstack.length - 2) 1 with
    | none =>
      exfalso
      unfold duk__reconfig_valstack at hrec
      rw [hget1] at hrec
      simp only [hcfunc] at hrec
      rw [if_neg (by omega)] at hrec
      exact Option.noConfusion hrec
    | some thr2 =>
      obtain ⟨hb, hl, _, hcontent, _, hcs2⟩ :=
        duk__reconfig_valstack_spec thr1 (thr.callstack.length - 2) 1 caller
          nregs thr2 hget1 hcfunc hbr (by omega) hrec
      refine ⟨thr2, ?_, ?_, ?_, hb, hl⟩
      · unfold duk__handle_longjmp_step
        rw [if_neg hect]
        simp only [hthr, hlj]
        rw [if_neg hcs]
        simp only [hwalk]
        rw [if_neg hnent, if_pos hlen2]
        simp only [hcaller, hcfunc]
        rw [if_pos hrv]
        simp only [hrec]
      · rw [hcontent caller.idx_retval (by omega)]
        have hlen1 : thr1.valstack.length = thr.valstack.length := by
          rw [hthr1]; exact List.length_set ..
        rw [if_pos (by omega), hthr1]
        show (thr.valstack.set caller.idx_retval h.lj.value1)[caller.idx_retval]? = _
        exact List.getElem?_set_eq_of_lt _ hrv
      · rw [hcs2, hthr1]
        show (thr.callstack.take (thr.callstack.length - 1)).length = _
        rw [List.length_take]
        omega
  · intro h et ect thr s rid resumer ract nregs hect hthr hlj hwalk hnent
      hlen1 hres hrget hrlen hract hrfunc hrv hbr hwin
    have hcs : thr.callstack.length ≠ 0 := by omega
    obtain ⟨r1, hyield, hslot, _, _, _⟩ :=
      handle_yield_spec h.lj resumer (resumer.callstack.length - 2) ract nregs
        hract hrfunc hrv hbr hwin (by omega)
    refine ⟨r1, hyield, hslot, ?_, rfl⟩
    unfold duk__handle_longjmp_step
    rw [if_neg hect]
    simp only [hthr, hlj]
    rw [if_neg hcs]
    simp only [hwalk]
    rw [if_neg hnent, if_neg (by omega)]
    simp only [hres, Heap.getThread, hrget]
    rw [if_pos hrlen]
    simp only [hyield]

/-! ### Uncaught throws and erroring yields -/

/-- C3: a throw that no catch-enabled or finally-enabled catcher takes:
in the entry thread the handler returns the rethrow result with the
longjmp state intact, so the dispatcher re-raises the error outward;
in any other thread the throwing thread is terminated, the identical
error value is redirected to its resumer as a still-pending throw, and
the handler re-enters from the top with the resumer as the current
thread. -/
theorem uncaught_throw_propagation :
    (∀ (h : Heap) (entry_thread entry_callstack_top : Nat) (thr : DukThread),
       entry_callstack_top ≠ 0 →
       h.threads[h.curr_thread]? = some thr →
       h.lj.type = .THROW →
       duk__walk_throw thr.catchstack (h.curr_thread == entry_thread)
         (entry_callstack_top - 1) thr.catchstack.length = none →
       h.curr_thread = entry_thread →
       duk__handle_longjmp_step h entry_thread entry_callstack_top =
         .done h .RETHROW) ∧
    (∀ (fuel : Nat) (h : Heap) (entry_thread entry_callstack_top : Nat)
       (thr : DukThread) (rid : Nat) (resumer : DukThread),
       entry_callstack_top ≠ 0 →
       h.threads[h.curr_thread]? = some thr →
       h.lj.type = .THROW →
       duk__walk_throw thr.catchstack (h.curr_thread == entry_thread)
         (entry_callstack_top - 1) thr.catchstack.length = none →
       h.curr_thread ≠ entry_thread →
       thr.resumer = some rid →
       h.threads[rid]? = some resumer →
       h.curr_thread ≠ rid →
       ∃ h2, duk__handle_longjmp_step h entry_thread entry_callstack_top =
           .again h2 ∧
         h2.lj = h.lj ∧
         h2.curr_thread = rid ∧
         h2.threads[h.curr_thread]? =
           some ({ duk_hthread_terminate thr with resumer := none }) ∧
         (duk_hthread_terminate thr).state = .TERMINATED ∧
         h2.threads[rid]? = some ({ resumer with state := .RUNNING }) ∧
         duk__handle_longjmp (fuel + 1) h entry_thread entry_callstack_top =
           duk__handle_longjmp fuel h2 entry_thread entry_callstack_top) := by
  constructor
  · intro h et ect thr hect hthr hlj hwalk hcur
    unfold duk__handle_longjmp_step
    rw [if_neg hect]
    simp only [hthr, hlj, hwalk]
    rw [if_pos hcur]
  · intro fuel h et ect thr rid resumer hect hthr hlj hwalk hne hres hrget
      hnrid
    have hcurlt : h.curr_thread < h.threads.length := lt_of_getElem?_eq_some hthr
    have hridlt : rid < h.threads.length := lt_of_getElem?_eq_some hrget
    have hstep : duk__handle_longjmp_step h et ect =
        .again { (h.setThread h.curr_thread ({ duk_hthread_terminate thr with resumer := none })).setThread rid ({ resumer with state := .RUNNING }) with curr_thread := rid } := by
      unfold duk__handle_longjmp_step
      rw [if_neg hect]
      simp only [hthr, hlj, hwalk]
      rw [if_neg hne]
      simp only [hres, Heap.getThread, hrget]
    refine ⟨_, hstep, rfl, rfl, ?_, rfl, ?_, ?_⟩
    · show ((h.threads.set h.curr_thread _).set rid _)[h.curr_thread]? = _
      rw [List.getElem?_set_ne (fun he => hnrid he.symm),
          List.getElem?_set_eq_of_lt _ hcurlt]
    · show ((h.threads.set h.curr_thread _).set rid _)[rid]? = _
      rw [List.getElem?_set_eq_of_lt _ (by rw [List.length_set]; exact hridlt)]
    · show duk__handle_longjmp (fuel + 1) h et ect = _
      rw [duk__handle_longjmp, hstep]

/-- C10: a yield with the error flag set leaves the yielding thread in
the `Yielded` state (not `Terminated`) with its resumer reference
cleared, so it remains resumable; the resumer becomes the running
current thread with its stacks untouched (no `resume()` return value is
delivered), and the error is re-dispatched in the resumer as a throw
carrying the same value. -/
theorem yield_iserror_redirect :
    ∀ (fuel : Nat) (h : Heap) (entry_thread entry_callstack_top : Nat)
      (thr : DukThread) (rid : Nat) (resumer : DukThread),
      entry_callstack_top ≠ 0 →
      h.threads[h.curr_thread]? = some thr →
      h.lj.type = .YIELD →
      h.lj.iserror = true →
      h.curr_thread ≠ entry_thread →
      thr.resumer = some rid →
      h.threads[rid]? = some resumer →
      h.curr_thread ≠ rid →
      ∃ h2, duk__handle_longjmp_step h entry_thread entry_callstack_top =
          .again h2 ∧
        h2.threads[h.curr_thread]? =
          some ({ thr with state := .YIELDED, resumer := none }) ∧
        ({ thr with state := .YIELDED, resumer := none } : DukThread).state =
          .YIELDED ∧
        h2.threads[rid]? = some ({ resumer with state := .RUNNING }) ∧
        ({ resumer with state := .RUNNING } : DukThread).valstack =
          resumer.valstack ∧
        ({ resumer with state := .RUNNING } : DukThread).callstack =
          resumer.callstack ∧
        h2.curr_thread = rid ∧
        h2.lj.type = .THROW ∧ h2.lj.value1 = h.lj.value1 ∧
        h2.lj.iserror = true ∧
        duk__handle_longjmp (fuel + 1) h entry_thread entry_callstack_top =
          duk__handle_longjmp fuel h2 entry_thread entry_callstack_top := by
  intro fuel h et ect thr rid resumer hect hthr hlj hiserr hne hres hrget
    hnrid
  have hcurlt : h.curr_thread < h.threads.length := lt_of_getElem?_eq_some hthr
  have hridlt : rid < h.threads.length := lt_of_getElem?_eq_some hrget
  have hstep : duk__handle_longjmp_step h et ect =
      .again { ((h.setThread h.curr_thread ({ thr with state := .YIELDED, resumer := none })).setThread rid ({ resumer with state := .RUNNING })) with curr_thread := rid, lj := { h.lj with type := .THROW } } := by
    unfold duk__handle_longjmp_step
    rw [if_neg hect]
    simp only [hthr, hlj]
    rw [if_neg hne]
    simp only [hres, Heap.getThread, hrget]
    rw [if_pos hiserr]
    rfl
  refine ⟨_, hstep, ?_, rfl, ?_, rfl, rfl, rfl, rfl, rfl, ?_, ?_⟩
  · show ((h.threads.set h.curr_thread _).set rid _)[h.curr_thread]? = _
    rw [List.getElem?_set_ne (fun he => hnrid he.symm),
        List.getElem?_set_eq_of_lt _ hcurlt]
  · show ((h.threads.set h.curr_thread _).set rid _)[rid]? = _
    rw [List.getElem?_set_eq_of_lt _ (by rw [List.length_set]; exact hridlt)]
  · show ({ h.lj with type := LjType.THROW }).iserror = true
    exact hiserr
  · show duk__handle_longjmp (fuel + 1) h et ect = _
    rw [duk__handle_longjmp, hstep]

theorem break_continue_dispatch_witness :
    ∃ thr', duk__handle_label c4Thread c4Heap.lj 0 = some thr' ∧
      duk__handle_longjmp_step c4Heap 0 1 =
        .done (wipeLj (c4Heap.setThread c4Heap.curr_thread thr')) .RESTART ∧
      (∃ act', thr'.callstack.getLast? = some act' ∧
         act'.pc = c4Cat.pc_base +
           (if c4Heap.lj.type = .CONTINUE then 1 else 0)) ∧
      thr'.catchstack = c4Thread.catchstack.take (0 + 1) :=
  break_continue_dispatch.2.2.1 c4Heap 0 1 c4Thread c4Cat c4Cat c1Act 3 5 0
    (by decide) (by decide) (Or.inl (by decide)) (by decide) (by decide)
    (by decide) (by decide) (by decide) (by decide) (by decide)

theorem return_transfer_outcomes_witness :
    ∃ thr2, duk__handle_longjmp_step c2Heap 0 1 =
        .done (wipeLj (c2Heap.setThread c2Heap.curr_thread thr2)) .RESTART ∧
      thr2.valstack[c2Caller.idx_retval]? = some c2Heap.lj.value1 ∧
      thr2.callstack.length = c2Thread.callstack.length - 1 ∧
      thr2.valstack_bottom = c2Caller.idx_bottom ∧
      thr2.valstack.length = c2Caller.idx_bottom + 3 :=
  return_transfer_outcomes.2.2.1 c2Heap 0 1 c2Thread 0 c2Caller 3
    (by decide) (by decide) (by decide) (by decide) (by decide) (by decide)
    (by decide) (by decide) (by decide) (by decide) (by decide)

theorem uncaught_throw_propagation_witness :
    ∃ h2, duk__handle_longjmp_step c3Heap 0 1 = .again h2 ∧
      h2.lj = c3Heap.lj ∧
      h2.curr_thread = 0 ∧
      h2.threads[c3Heap.curr_thread]? =
        some ({ duk_hthread_terminate c3Coro with resumer := none }) ∧
      (duk_hthread_terminate c3Coro).state = .TERMINATED ∧
      h2.threads[0]? = some ({ c3Resumer with state := .RUNNING }) ∧
      duk__handle_longjmp (5 + 1) c3Heap 0 1 =
        duk__handle_longjmp 5 h2 0 1 :=
  uncaught_throw_propagation.2 5 c3Heap 0 1 c3Coro 0 c3Resumer
    (by decide) (by decide) (by decide) (by decide) (by decide) (by decide)
    (by decide) (by decide)

theorem yield_iserror_redirect_witness :
    ∃ h2, duk__handle_longjmp_step c10Heap 0 1 = .again h2 ∧
      h2.threads[c10Heap.curr_thread]? =
        some ({ c3Coro with state := .YIELDED, resumer := none }) ∧
      ({ c3Coro with state := .YIELDED, resumer := none } : DukThread).state =
        .YIELDED ∧
      h2.threads[0]? = some ({ c3Resumer with state := .RUNNING }) ∧
      ({ c3Resumer with state := .RUNNING } : DukThread).valstack =
        c3Resumer.valstack ∧
      ({ c3Resumer with state := .RUNNING } : DukThread).callstack =
        c3Resumer.callstack ∧
      h2.curr_thread = 0 ∧
      h2.lj.type = .THROW ∧ h2.lj.value1 = c10Heap.lj.value1 ∧
      h2.lj.iserror = true ∧
      duk__handle_longjmp (3 + 1) c10Heap 0 1 =
        duk__handle_longjmp 3 h2 0 1 :=
  yield_iserror_redirect 3 c10Heap 0 1 c3Coro 0 c3Resumer
    (by decide) (by decide) (by decide) (by decide) (by decide) (by decide)
    (by decide) (by decide)

/-! ### TYPEOFID -/

/-- C9: `TYPEOFID` on an unresolvable identifier never throws: it writes
the string `"undefined"` into the target register and leaves the value
stack shape (and every other slot, and the frame stacks) unchanged. -/
theorem typeofid_unresolvable (globals : Nat → String → Option TVal)
    (t : DukThread) (consts : List TVal) (b c : Nat) (act : Activation)
    (name : String)
    (hact : t.callstack.getLast? = some act)
    (hconst : consts[c]? = some (.str name))
    (hreg : t.valstack_bottom + b < t.valstack.length)
    (hunres : duk_js_getvar_activation globals act.lex_env name = none) :
    ∃ t', DUK_EXTRAOP_TYPEOFID_exec globals t consts b c = some t' ∧
      t'.valstack[t.valstack_bottom + b]? = some (.str "undefined") ∧
      t'.valstack.length = t.valstack.length ∧
      (∀ j, j ≠ t.valstack_bottom + b → t'.valstack[j]? = t.valstack[j]?) ∧
      t'.callstack = t.callstack ∧ t'.valstack_bottom = t.valstack_bottom ∧
      t'.catchstack = t.catchstack := by
  have hstep : DUK_EXTRAOP_TYPEOFID_exec globals t consts b c =
      some { t with valstack := t.valstack.set (t.valstack_bottom + b)
                      (.str "undefined") } := by
    unfold DUK_EXTRAOP_TYPEOFID_exec
    rw [hact]
    simp only [Option.bind_eq_bind, Option.some_bind]
    rw [hconst]
    simp only [if_pos hreg]
    rw [hunres]
  exact ⟨_, hstep, List.getElem?_set_eq_of_lt _ hreg,
    by simp [List.length_set],
    fun j hj => List.getElem?_set_ne (Ne.symm hj),
    rfl, rfl, rfl⟩

/-- C9 witness: `typeof x` with `x` unresolvable. -/
theorem typeofid_unresolvable_witness :
    ∃ t', DUK_EXTRAOP_TYPEOFID_exec (fun _ _ => none) typeofidWitnessThread
            [.str "x"] 0 0 = some t' ∧
      t'.valstack[typeofidWitnessThread.valstack_bottom + 0]? =
        some (.str "undefined") ∧
      t'.valstack.length = typeofidWitnessThread.valstack.length ∧
      (∀ j, j ≠ typeofidWitnessThread.valstack_bottom + 0 →
        t'.valstack[j]? = typeofidWitnessThread.valstack[j]?) ∧
      t'.callstack = typeofidWitnessThread.callstack ∧
      t'.valstack_bottom = typeofidWitnessThread.valstack_bottom ∧
      t'.catchstack = typeofidWitnessThread.catchstack :=
  typeofid_unresolvable (fun _ _ => none) typeofidWitnessThread [.str "x"] 0 0
    typeofidWitnessAct "x" (by decide) (by decide) (by decide) rfl

/-- C8 witness: a NaN-producing addition stores the canonical NaN. -/
theorem numeric_stores_normalized_witness :
    ([TVal.num (.nan canonicalNanBits)] : List TVal)[0 + 0]? =
      some (.num (normalizeNanCheck (DukDouble.nan 5))) ∧
    (normalizeNanCheck (DukDouble.nan 5)).isNormalized = true ∧
    ((DukDouble.nan 5).isNan = true →
      normalizeNanCheck (DukDouble.nan 5) = .nan canonicalNanBits) :=
  numeric_stores_normalized.1 [TVal.null] 0 (.nan 5) 0
    [.num (.nan canonicalNanBits)] (by decide)

end Duk
